import Mathlib

/-!
# Notification screen of InfiniTime: navigation and lifecycle state machine

A shallow embedding of `src/displayapp/screens/Notifications.cpp`.

* Machine integers are natural numbers with explicit wrap-around:
  `uint8_t` values are reduced modulo `256`, `TickType_t` / `uint32_t`
  values modulo `2 ^ 32`, and the `int32_t` conversion of the timeout
  position is two's complement.
* The calls the screen makes on its collaborators (system task, motor
  controller, alert notification service, display application, animation
  engine, notification store) are recorded, in program order, in an effect log.
* The tick counter `xTaskGetTickCount()` is an input of every operation that
  reads it.
* Widget layout and styling are not modelled; the label texts and the
  position counter of a view item are.
-/

namespace Pinetime

/-! ## Machine arithmetic -/

/-- Reading of the 32-bit tick counter `xTaskGetTickCount()` at time `tick`. -/
def xTaskGetTickCount (tick : Nat) : Nat := tick % 2 ^ 32

/-- Addition of two `uint32_t` values. -/
def add32 (a b : Nat) : Nat := (a + b) % 2 ^ 32

/-- Subtraction of two `uint32_t` values. -/
def sub32 (a b : Nat) : Nat := (a % 2 ^ 32 + 2 ^ 32 - b % 2 ^ 32) % 2 ^ 32

/-- Conversion of a `uint32_t` value to `int32_t` (two's complement). -/
def toInt32 (u : Nat) : Int :=
  if u % 2 ^ 32 < 2 ^ 31 then ((u % 2 ^ 32 : Nat) : Int) else ((u % 2 ^ 32 : Nat) : Int) - 2 ^ 32

/-- Conversion to `uint8_t`. -/
def toU8 (n : Nat) : Nat := n % 256

/-- Compile-time constants the screen reads: `LV_HOR_RES` of the toolkit
configuration, and `timeoutLength` and `dismissAnimLength` of
`Notifications.h`. The header and the toolkit configuration are not part of the
sources at hand, so the three values are parameters of the development. -/
structure Constants where
  LV_HOR_RES : Nat
  timeoutLength : Nat
  dismissAnimLength : Nat
  deriving DecidableEq

/-! ## Enumerations -/

/-- The screen modes, `Notifications::Modes`. -/
inductive Modes
  | Normal
  | Preview
  deriving DecidableEq

/-- Notification categories, `NotificationManager::Categories`. The code only
distinguishes `IncomingCall` from all the others. -/
inductive Categories
  | Unknown
  | SimpleAlert
  | Email
  | News
  | IncomingCall
  | MissedCall
  | Sms
  | VoiceMail
  | Schedule
  | HighProriotyAlert
  | InstantMessage
  deriving DecidableEq

/-- Classified gestures, `Pinetime::Applications::TouchEvents`. -/
inductive TouchEvents
  | None
  | Tap
  | SwipeLeft
  | SwipeRight
  | SwipeUp
  | SwipeDown
  | LongTap
  | DoubleTap
  deriving DecidableEq

/-- Messages pushed to the system task that the screen uses. -/
inductive Messages
  | DisableSleeping
  | EnableSleeping
  deriving DecidableEq

/-- Directions of `DisplayApp::SetFullRefresh` that the screen uses. -/
inductive FullRefreshDirections
  | Up
  | Down
  deriving DecidableEq

/-- Toolkit events delivered to an object's event callback. -/
inductive lv_event_t
  | LV_EVENT_PRESSED
  | LV_EVENT_PRESSING
  | LV_EVENT_PRESS_LOST
  | LV_EVENT_SHORT_CLICKED
  | LV_EVENT_LONG_PRESSED
  | LV_EVENT_LONG_PRESSED_REPEAT
  | LV_EVENT_CLICKED
  | LV_EVENT_RELEASED
  deriving DecidableEq

/-- Calls on the collaborators of the screen, in the order they are made. -/
inductive Effect
  | PushMessage (m : Messages)
  | StartRinging
  | StopRinging
  | RunForDuration (ms : Nat)
  | Dismiss (idx : Nat)
  | SetFullRefresh (d : FullRefreshDirections)
  | lv_anim_start
  | AcceptIncomingCall
  | RejectIncomingCall
  | MuteIncomingCall
  deriving DecidableEq

/-! ## The notification store -/

/-- A record handed out by the store, `NotificationManager::Notification`:
`title` is what `Title()` returns (`none` for a null pointer) and `message`
what `Message()` returns. A default-constructed record is not valid. -/
structure Notification where
  valid : Bool
  category : Categories
  title : Option String
  message : String
  deriving DecidableEq

/-- The default-constructed record: "no such record". -/
def Notification.none : Notification :=
  { valid := false, category := Categories.Unknown, title := Option.none, message := "" }

/-- Modelled from the spec: the notification store (`NotificationManager`, whose
source is not at hand) is an ordered collection of records with the most recent
record at index 0, together with its "has new" flag. -/
structure NotificationManager where
  notifications : List Notification
  newNotification : Bool
  deriving DecidableEq

/-- Modelled from the spec: `Count()`, the number of stored records. -/
def NotificationManager.NbNotifications (nm : NotificationManager) : Nat :=
  nm.notifications.length

/-- Modelled from the spec: `ClearNewFlag()`. -/
def NotificationManager.ClearNewNotificationFlag (nm : NotificationManager) : NotificationManager :=
  { nm with newNotification := false }

/-- Modelled from the spec: `At(index)`; a lookup out of range returns a record
with `valid = false` and a lookup in range returns a valid record. -/
def NotificationManager.At (nm : NotificationManager) (idx : Nat) : Notification :=
  match nm.notifications[idx]? with
  | some n => { n with valid := true }
  | Option.none => Notification.none

/-- Modelled from the spec: `MostRecent()`, the record at index 0, not valid
when the store is empty. -/
def NotificationManager.GetLastNotification (nm : NotificationManager) : Notification :=
  nm.At 0

/-- Modelled from the spec: `Previous(index)`, the record immediately before
(older than) the one at `index`, that is the one at `index + 1`. -/
def NotificationManager.GetPrevious (nm : NotificationManager) (idx : Nat) : Notification :=
  nm.At (idx + 1)

/-- Modelled from the spec: `Next(index)`, the record after (newer than) the
one at `index`, that is the one at `index - 1`; not valid for index 0 or for
an index out of range. -/
def NotificationManager.GetNext (nm : NotificationManager) (idx : Nat) : Notification :=
  if 0 < idx ∧ idx < nm.NbNotifications then nm.At (idx - 1) else Notification.none

/-- Modelled from the spec: `Dismiss(index)` removes the record at `index`;
the records after it move one index down. -/
def NotificationManager.Dismiss (nm : NotificationManager) (idx : Nat) : NotificationManager :=
  { nm with notifications := nm.notifications.eraseIdx idx }

/-! ## The view item -/

/-- The view item, `Notifications::NotificationItem`. `alert_type` and `msg` are
the texts of the title and body labels, `notifNr` and `notifNb` the two numbers
of the position label `"%i/%i"`. Toolkit objects are identified by the order of
their creation inside the item; the three call buttons exist only for an
incoming call. -/
structure NotificationItem where
  alert_type : String
  msg : String
  notifNr : Nat
  notifNb : Nat
  category : Categories
  mode : Modes
  bt_accept : Option Nat
  bt_reject : Option Nat
  bt_mute : Option Nat
  dismissAnimTickCount : Nat
  running : Bool
  deriving DecidableEq

/-- The text of the title label: `"Notification"` for a null title, else the
title with every newline replaced by a space. -/
def titleLabel (title : Option String) : String :=
  match title with
  | Option.none => "Notification"
  | some t => String.mk (t.data.map (fun c => if c = '\n' then ' ' else c))

/-- The main constructor of `NotificationItem` (lines 228-335). The objects are
created in the order container (0), subject container (1), position label (2),
title label (3), subject label (4) and, for an incoming call, caller label (5),
accept button (6) and its label (7), reject button (8) and its label (9), mute
button (10) and its label (11). `notifNr` and `notifNb` are `uint8_t`
parameters. Modelled from the spec: a new item has `running = true` and an
animator that was not started (`dismissAnimTickCount = 0`), the default member
initialisers of `Notifications.h`. -/
def NotificationItem.new (title : Option String) (msg : String) (notifNr : Nat)
    (category : Categories) (notifNb : Nat) (mode : Modes) : NotificationItem :=
  { alert_type := titleLabel title
    msg := msg
    notifNr := toU8 notifNr
    notifNb := toU8 notifNb
    category := category
    mode := mode
    bt_accept := if category = Categories.IncomingCall then some 6 else Option.none
    bt_reject := if category = Categories.IncomingCall then some 8 else Option.none
    bt_mute := if category = Categories.IncomingCall then some 10 else Option.none
    dismissAnimTickCount := 0
    running := true }

/-- The empty-state constructor of `NotificationItem` (lines 215-226). -/
def NotificationItem.empty (category : Categories) : NotificationItem :=
  NotificationItem.new (some "Notification") "No notification to display" 0 category 0 Modes.Preview

/-- The accessor `NotificationItem::IsRunning`. -/
def NotificationItem.IsRunning (item : NotificationItem) : Bool := item.running

/-- The method `NotificationItem::OnCallButtonEvent` (lines 337-353): the new item and
the calls made, in order. `obj` identifies the object that received `event`. -/
def NotificationItem.OnCallButtonEvent (item : NotificationItem) (obj : Nat) (event : lv_event_t) :
    NotificationItem × List Effect :=
  if event ≠ lv_event_t.LV_EVENT_CLICKED then (item, [])
  else
    let call : List Effect :=
      if some obj = item.bt_accept then [Effect.AcceptIncomingCall]
      else if some obj = item.bt_reject then [Effect.RejectIncomingCall]
      else if some obj = item.bt_mute then [Effect.MuteIncomingCall]
      else []
    ({ item with running := false }, Effect.StopRinging :: call)

/-- The method `NotificationItem::AnimateDismiss` (lines 355-358), the animator's `Start()`. -/
def NotificationItem.AnimateDismiss (item : NotificationItem) (tick : Nat) :
    NotificationItem × List Effect :=
  ({ item with dismissAnimTickCount := xTaskGetTickCount tick }, [Effect.lv_anim_start])

/-- The method `NotificationItem::AnimationElapsed` (lines 360-367), the animator's
`Elapsed()`: the returned flag and the new item. `dismissAnimTickCount` and
`dismissAnimLength` are 32-bit unsigned like the tick counter, so their sum
wraps around at `2 ^ 32`. -/
def NotificationItem.AnimationElapsed (k : Constants) (item : NotificationItem) (tick : Nat) :
    Bool × NotificationItem :=
  let elapsed : Bool :=
    decide (item.dismissAnimTickCount ≠ 0) &&
      decide (xTaskGetTickCount tick > add32 item.dismissAnimTickCount k.dismissAnimLength)
  if elapsed then (elapsed, { item with dismissAnimTickCount := 0 }) else (elapsed, item)

/-! ## The navigation controller -/

/-- The screen, `Notifications`. `timeoutLine` tells whether the timeout
indicator exists (the pointer is not null). The store is held by reference in
the program and passed along explicitly here; `log` collects the calls made on
the other collaborators. -/
structure Notifications where
  notificationManager : NotificationManager
  mode : Modes
  currentItem : NotificationItem
  currentId : Nat
  validDisplay : Bool
  running : Bool
  interacted : Bool
  timeoutLine : Bool
  timeoutTickCountStart : Nat
  log : List Effect
  deriving DecidableEq

/-- The constructor `Notifications::Notifications` (lines 12-62), run at tick `tick`.
Modelled from the spec: before the constructor body runs, `validDisplay` is
false, `running` is true, the timeout indicator does not exist and
`interacted` is false (the default member initialisers of `Notifications.h`
and of the `Screen` base class). `timeoutTickCountStart` is only written and
read in Preview mode; it is 0 here in Normal mode. -/
def Notifications.new (nm : NotificationManager) (mode : Modes) (tick : Nat) : Notifications :=
  let nm := nm.ClearNewNotificationFlag
  let notification := nm.GetLastNotification
  let currentItem :=
    if notification.valid then
      NotificationItem.new notification.title notification.message 1 notification.category
        nm.NbNotifications mode
    else NotificationItem.empty notification.category
  let validDisplay := notification.valid
  let preview : List Effect :=
    if mode = Modes.Preview then
      [Effect.PushMessage Messages.DisableSleeping,
        if notification.category = Categories.IncomingCall then Effect.StartRinging
        else Effect.RunForDuration 35]
    else []
  { notificationManager := nm
    mode := mode
    currentItem := currentItem
    currentId := 0
    validDisplay := validDisplay
    running := true
    interacted := false
    timeoutLine := decide (mode = Modes.Preview)
    timeoutTickCountStart := if mode = Modes.Preview then xTaskGetTickCount tick else 0
    log := preview }

/-- The destructor `Notifications::~Notifications` (lines 64-70): the calls made. -/
def Notifications.destroyEffects : List Effect :=
  [Effect.StopRinging, Effect.PushMessage Messages.EnableSleeping]

/-- The effect log of the screen after its destruction. -/
def Notifications.destroy (s : Notifications) : List Effect :=
  s.log ++ Notifications.destroyEffects

/-- The remaining length `pos` of the timeout indicator computed in `Refresh`
(line 75): unsigned 32-bit arithmetic, converted to `int32_t`. The division by
`timeoutLength / LV_HOR_RES` is only defined in the program when that quotient
is not zero. -/
def timeoutPos (k : Constants) (timeoutTickCountStart tick : Nat) : Int :=
  toInt32 (sub32 k.LV_HOR_RES
    (sub32 (xTaskGetTickCount tick) timeoutTickCountStart / (k.timeoutLength / k.LV_HOR_RES)))

/-- The first part of `Refresh` (lines 73-82): the preview timeout. Redrawing
the indicator has no effect on the state modelled. -/
def Notifications.refreshTimeout (k : Constants) (s : Notifications) (tick : Nat) : Notifications :=
  if s.mode = Modes.Preview ∧ s.timeoutLine = true then
    if timeoutPos k s.timeoutTickCountStart tick ≤ 0 then { s with running := false } else s
  else s

/-- The second part of `Refresh` (lines 84-111): the view item is replaced once
its dismiss animation has elapsed. -/
def Notifications.refreshItem (k : Constants) (s : Notifications) (tick : Nat) : Notifications :=
  let r := s.currentItem.AnimationElapsed k tick
  if r.1 then
    let n0 := s.notificationManager.At s.currentId
    let notification := if !n0.valid then s.notificationManager.GetLastNotification else n0
    let currentId := if !n0.valid then 0 else s.currentId
    let validDisplay := if !notification.valid then false else s.validDisplay
    if validDisplay then
      { s with
        currentId := currentId
        validDisplay := validDisplay
        log := s.log ++ [Effect.SetFullRefresh FullRefreshDirections.Up]
        currentItem :=
          NotificationItem.new notification.title notification.message (currentId + 1)
            notification.category s.notificationManager.NbNotifications s.mode }
    else
      { s with
        currentId := 0
        validDisplay := validDisplay
        log := s.log ++ [Effect.SetFullRefresh FullRefreshDirections.Up]
        currentItem := NotificationItem.empty notification.category }
  else { s with currentItem := r.2 }

/-- The method `Notifications::Refresh` (lines 72-114), run at tick `tick`. -/
def Notifications.Refresh (k : Constants) (s : Notifications) (tick : Nat) : Notifications :=
  let s1 := s.refreshTimeout k tick
  let s2 := s1.refreshItem k tick
  { s2 with running := s2.currentItem.IsRunning && s2.running }

/-- The method `Notifications::OnPreviewInteraction` (lines 116-123). -/
def Notifications.OnPreviewInteraction (s : Notifications) : Notifications :=
  { s with
    log := s.log ++ [Effect.PushMessage Messages.EnableSleeping, Effect.StopRinging]
    timeoutLine := false }

/-- The method `Notifications::OnTouchEvent` (lines 125-206), run at tick `tick`: the
new state and the returned "handled" flag. `currentId` is a `uint8_t`; the
`uint8_t` conversion of `NbNotifications() - 1` is `NbNotifications() + 255`
modulo 256. -/
def Notifications.OnTouchEvent (s : Notifications) (event : TouchEvents) (tick : Nat) :
    Notifications × Bool :=
  if s.mode ≠ Modes.Normal then
    if !s.interacted ∧ event = TouchEvents.Tap then
      ({ s with interacted := true }.OnPreviewInteraction, true)
    else (s, false)
  else
    match event with
    | TouchEvents.SwipeRight =>
      if s.validDisplay then
        let nm := s.notificationManager.Dismiss s.currentId
        let currentId :=
          if s.currentId > 0 ∧ s.currentId = nm.NbNotifications then s.currentId - 1
          else s.currentId
        let r := s.currentItem.AnimateDismiss tick
        ({ s with
            notificationManager := nm
            currentId := currentId
            currentItem := r.1
            log := s.log ++ [Effect.Dismiss s.currentId] ++ r.2 }, true)
      else (s, false)
    | TouchEvents.SwipeDown =>
      let previousNotification :=
        if s.validDisplay then s.notificationManager.GetPrevious s.currentId
        else s.notificationManager.GetLastNotification
      let currentId :=
        if s.validDisplay then
          if previousNotification.valid then
            min (toU8 (s.currentId + 1)) (toU8 (s.notificationManager.NbNotifications + 255))
          else s.currentId
        else 0
      if !previousNotification.valid then ({ s with currentId := currentId }, true)
      else
        ({ s with
            currentId := currentId
            validDisplay := true
            log := s.log ++ [Effect.SetFullRefresh FullRefreshDirections.Down]
            currentItem :=
              NotificationItem.new previousNotification.title previousNotification.message
                (currentId + 1) previousNotification.category
                s.notificationManager.NbNotifications s.mode }, true)
    | TouchEvents.SwipeUp =>
      let nextNotification :=
        if s.validDisplay then s.notificationManager.GetNext s.currentId
        else s.notificationManager.GetLastNotification
      if !nextNotification.valid then ({ s with running := false }, false)
      else
        let currentId := if s.currentId > 0 then s.currentId - 1 else s.currentId
        ({ s with
            validDisplay := true
            currentId := currentId
            log := s.log ++ [Effect.SetFullRefresh FullRefreshDirections.Up]
            currentItem :=
              NotificationItem.new nextNotification.title nextNotification.message
                (currentId + 1) nextNotification.category
                s.notificationManager.NbNotifications s.mode }, true)
    | _ => (s, false)

/-! ## Runs of the controller -/

/-- What can happen to a live screen: a gesture or a refresh tick, each at the
tick counter's current value. -/
inductive Event
  | touch (event : TouchEvents) (tick : Nat)
  | refresh (tick : Nat)
  deriving DecidableEq

/-- One event applied to the screen. -/
def Notifications.step (k : Constants) (s : Notifications) : Event → Notifications
  | Event.touch event tick => (s.OnTouchEvent event tick).1
  | Event.refresh tick => s.Refresh k tick

/-- A sequence of events applied to the screen, first to last. -/
def Notifications.run (k : Constants) (s : Notifications) (evs : List Event) : Notifications :=
  evs.foldl (Notifications.step k) s

/-- The effect log of a whole lifetime: construction at tick `tick`, the
events, destruction. -/
def lifetimeLog (k : Constants) (nm : NotificationManager) (mode : Modes) (tick : Nat)
    (evs : List Event) : List Effect :=
  ((Notifications.new nm mode tick).run k evs).destroy

/-- Number of `DisableSleeping` messages in an effect log. -/
def countDisableSleeping (log : List Effect) : Nat :=
  log.count (Effect.PushMessage Messages.DisableSleeping)

/-- Number of `EnableSleeping` messages in an effect log. -/
def countEnableSleeping (log : List Effect) : Nat :=
  log.count (Effect.PushMessage Messages.EnableSleeping)

/-- A store of `n` plain records, used to exercise the definitions: record `i`
has the message `"m" ++ i`. -/
def sampleStore (n : Nat) : NotificationManager :=
  { notifications :=
      (List.range n).map (fun i =>
        { valid := true, category := Categories.SimpleAlert, title := some "t",
          message := String.mk ('m' :: (Nat.repr i).data) })
    newNotification := true }

/-- Sample constants: a 240 pixel wide screen, a 7168 tick timeout and a 307
tick dismiss animation. -/
def sampleConstants : Constants :=
  { LV_HOR_RES := 240, timeoutLength := 7168, dismissAnimLength := 307 }

/-- Index validity of a state: a valid display points inside the store. -/
def IndexValid (s : Notifications) : Prop :=
  s.validDisplay = true → s.currentId < s.notificationManager.NbNotifications

/-- Index validity up to a pending dismissal of the only record: a valid
display points inside the store, or the store is empty and the cursor is 0. -/
def IndexValidOrEmptied (s : Notifications) : Prop :=
  s.validDisplay = true →
    s.currentId < s.notificationManager.NbNotifications ∨
      (s.currentId = 0 ∧ s.notificationManager.NbNotifications = 0)

/-- The cursor invariant of the controller: index validity up to a pending
dismissal of the only record, and a cursor reset to 0 while the empty state is
shown. -/
def CursorInv (s : Notifications) : Prop :=
  IndexValidOrEmptied s ∧ (s.validDisplay = false → s.currentId = 0)

/-- Whether an event is a Tap gesture. -/
def Event.isTap : Event → Bool
  | Event.touch TouchEvents.Tap _ => true
  | _ => false

/-- A call on the dismiss animator of a view item: `Start()` is
`AnimateDismiss`, `Elapsed()` is `AnimationElapsed`, each at a tick. -/
inductive AnimatorOp
  | Start (tick : Nat)
  | Elapsed (tick : Nat)
  deriving DecidableEq

/-- The view item after a sequence of animator calls. -/
def NotificationItem.runAnimator (k : Constants) (item : NotificationItem) :
    List AnimatorOp → NotificationItem
  | [] => item
  | AnimatorOp.Start tick :: ops => (item.AnimateDismiss tick).1.runAnimator k ops
  | AnimatorOp.Elapsed tick :: ops => (item.AnimationElapsed k tick).2.runAnimator k ops

/-- The values returned by `AnimationElapsed` polled at each of the ticks in turn. -/
def NotificationItem.pollAll (k : Constants) (item : NotificationItem) : List Nat → List Bool
  | [] => []
  | tick :: ticks =>
    (item.AnimationElapsed k tick).1 :: (item.AnimationElapsed k tick).2.pollAll k ticks

/-- The screen over five records after four swipe-downs: viewing 5/5. -/
def sampleAtLast : Notifications :=
  (Notifications.new (sampleStore 5) Modes.Normal 5).run sampleConstants
    [Event.touch TouchEvents.SwipeDown 6, Event.touch TouchEvents.SwipeDown 7,
      Event.touch TouchEvents.SwipeDown 8, Event.touch TouchEvents.SwipeDown 9]

/-- The empty-store invariant: the empty state is shown with the cursor at 0,
the store is empty, no `Dismiss` call was made, and the view item is the
empty-state placeholder. -/
def EmptyStoreInv (s : Notifications) : Prop :=
  s.validDisplay = false ∧ s.currentId = 0 ∧ s.notificationManager.notifications = [] ∧
    (∀ i, Effect.Dismiss i ∉ s.log) ∧ s.currentItem = NotificationItem.empty Categories.Unknown

/-- The screen opened on an empty store, looked at after the store has
received two records: the empty state is still shown (`validDisplay` false,
`currentId` 0) while the store holds two records. -/
def sampleEmptyShown : Notifications :=
  { Notifications.new (sampleStore 0) Modes.Normal 5 with notificationManager := sampleStore 2 }

/-- The position label of the live view item is in range: it shows position
`currentId + 1` of `Count()`, with `1 ≤ position ≤ total`. -/
def LabelInRange (s : Notifications) : Prop :=
  s.currentItem.notifNr = s.currentId + 1 ∧
    s.currentItem.notifNb = s.notificationManager.NbNotifications ∧
    1 ≤ s.currentItem.notifNr ∧ s.currentItem.notifNr ≤ s.currentItem.notifNb

/-! ## Facts about the store -/

theorem At_valid (nm : NotificationManager) (i : Nat) :
    (nm.At i).valid = true ↔ i < nm.NbNotifications := by
  unfold NotificationManager.At NotificationManager.NbNotifications
  cases h : nm.notifications[i]? with
  | none =>
    have := List.getElem?_eq_none_iff.mp h
    simp [Notification.none]; omega
  | some n =>
    have := (List.getElem?_eq_some_iff.mp h).1
    simp [this]

theorem GetLastNotification_valid (nm : NotificationManager) :
    nm.GetLastNotification.valid = true ↔ 0 < nm.NbNotifications :=
  At_valid nm 0

theorem GetPrevious_valid (nm : NotificationManager) (i : Nat) :
    (nm.GetPrevious i).valid = true ↔ i + 1 < nm.NbNotifications :=
  At_valid nm (i + 1)

theorem GetNext_valid (nm : NotificationManager) (i : Nat) :
    (nm.GetNext i).valid = true ↔ 0 < i ∧ i < nm.NbNotifications := by
  unfold NotificationManager.GetNext
  split
  · rename_i h
    rw [At_valid]
    constructor
    · intro _; exact h
    · intro _; omega
  · rename_i h
    simp [Notification.none, h]

theorem NbNotifications_Dismiss (nm : NotificationManager) (i : Nat) :
    (nm.Dismiss i).NbNotifications =
      if i < nm.NbNotifications then nm.NbNotifications - 1 else nm.NbNotifications := by
  simp [NotificationManager.Dismiss, NotificationManager.NbNotifications, List.length_eraseIdx]

/-! ## Case equations of the operations -/

theorem OnTouchEvent_notNormal (s : Notifications) (e : TouchEvents) (t : Nat)
    (hm : s.mode ≠ Modes.Normal) :
    s.OnTouchEvent e t =
      if !s.interacted ∧ e = TouchEvents.Tap then
        ({ s with interacted := true }.OnPreviewInteraction, true)
      else (s, false) := by
  simp only [Notifications.OnTouchEvent, hm, ne_eq, not_false_eq_true, if_true]

theorem OnTouchEvent_swipeRight (s : Notifications) (t : Nat) (hm : s.mode = Modes.Normal) :
    s.OnTouchEvent TouchEvents.SwipeRight t =
      if s.validDisplay = true then
        ({ s with
            notificationManager := s.notificationManager.Dismiss s.currentId
            currentId :=
              if s.currentId > 0 ∧
                  s.currentId = (s.notificationManager.Dismiss s.currentId).NbNotifications then
                s.currentId - 1
              else s.currentId
            currentItem := (s.currentItem.AnimateDismiss t).1
            log := s.log ++ [Effect.Dismiss s.currentId] ++ (s.currentItem.AnimateDismiss t).2 },
          true)
      else (s, false) := by
  simp only [Notifications.OnTouchEvent, hm, ne_eq, not_true_eq_false, if_false]

theorem OnTouchEvent_swipeDown_none (s : Notifications) (t : Nat) (hm : s.mode = Modes.Normal)
    (hn : (if s.validDisplay = true then s.notificationManager.GetPrevious s.currentId
      else s.notificationManager.GetLastNotification).valid = false) :
    s.OnTouchEvent TouchEvents.SwipeDown t =
      ({ s with currentId := if s.validDisplay = true then s.currentId else 0 }, true) := by
  simp only [Notifications.OnTouchEvent, hm, ne_eq, not_true_eq_false, if_false, hn,
    Bool.not_false, if_true, Bool.false_eq_true]

theorem OnTouchEvent_swipeDown_some (s : Notifications) (t : Nat) (hm : s.mode = Modes.Normal)
    (hn : (if s.validDisplay = true then s.notificationManager.GetPrevious s.currentId
      else s.notificationManager.GetLastNotification).valid = true) :
    s.OnTouchEvent TouchEvents.SwipeDown t =
      ({ s with
          currentId :=
            if s.validDisplay = true then
              min (toU8 (s.currentId + 1)) (toU8 (s.notificationManager.NbNotifications + 255))
            else 0
          validDisplay := true
          log := s.log ++ [Effect.SetFullRefresh FullRefreshDirections.Down]
          currentItem :=
            NotificationItem.new
              (if s.validDisplay = true then s.notificationManager.GetPrevious s.currentId
                else s.notificationManager.GetLastNotification).title
              (if s.validDisplay = true then s.notificationManager.GetPrevious s.currentId
                else s.notificationManager.GetLastNotification).message
              ((if s.validDisplay = true then
                  min (toU8 (s.currentId + 1)) (toU8 (s.notificationManager.NbNotifications + 255))
                else 0) + 1)
              (if s.validDisplay = true then s.notificationManager.GetPrevious s.currentId
                else s.notificationManager.GetLastNotification).category
              s.notificationManager.NbNotifications s.mode }, true) := by
  simp only [Notifications.OnTouchEvent, hm, ne_eq, not_true_eq_false, if_false, hn,
    Bool.not_true, if_true, Bool.false_eq_true]

theorem OnTouchEvent_swipeUp_none (s : Notifications) (t : Nat) (hm : s.mode = Modes.Normal)
    (hn : (if s.validDisplay = true then s.notificationManager.GetNext s.currentId
      else s.notificationManager.GetLastNotification).valid = false) :
    s.OnTouchEvent TouchEvents.SwipeUp t = ({ s with running := false }, false) := by
  simp only [Notifications.OnTouchEvent, hm, ne_eq, not_true_eq_false, if_false, hn,
    Bool.not_false, if_true]

theorem OnTouchEvent_swipeUp_some (s : Notifications) (t : Nat) (hm : s.mode = Modes.Normal)
    (hn : (if s.validDisplay = true then s.notificationManager.GetNext s.currentId
      else s.notificationManager.GetLastNotification).valid = true) :
    s.OnTouchEvent TouchEvents.SwipeUp t =
      ({ s with
          validDisplay := true
          currentId := if s.currentId > 0 then s.currentId - 1 else s.currentId
          log := s.log ++ [Effect.SetFullRefresh FullRefreshDirections.Up]
          currentItem :=
            NotificationItem.new
              (if s.validDisplay = true then s.notificationManager.GetNext s.currentId
                else s.notificationManager.GetLastNotification).title
              (if s.validDisplay = true then s.notificationManager.GetNext s.currentId
                else s.notificationManager.GetLastNotification).message
              ((if s.currentId > 0 then s.currentId - 1 else s.currentId) + 1)
              (if s.validDisplay = true then s.notificationManager.GetNext s.currentId
                else s.notificationManager.GetLastNotification).category
              s.notificationManager.NbNotifications s.mode }, true) := by
  simp only [Notifications.OnTouchEvent, hm, ne_eq, not_true_eq_false, if_false, hn,
    Bool.not_true, Bool.false_eq_true]

theorem OnTouchEvent_other (s : Notifications) (e : TouchEvents) (t : Nat)
    (hm : s.mode = Modes.Normal) (h1 : e ≠ TouchEvents.SwipeRight)
    (h2 : e ≠ TouchEvents.SwipeDown) (h3 : e ≠ TouchEvents.SwipeUp) :
    s.OnTouchEvent e t = (s, false) := by
  cases e <;> simp_all [Notifications.OnTouchEvent]


theorem AnimationElapsed_fst (k : Constants) (item : NotificationItem) (t : Nat) :
    (item.AnimationElapsed k t).1 =
      (decide (item.dismissAnimTickCount ≠ 0) &&
        decide (xTaskGetTickCount t > add32 item.dismissAnimTickCount k.dismissAnimLength)) := by
  unfold NotificationItem.AnimationElapsed
  dsimp only
  split <;> rfl

theorem AnimationElapsed_snd (k : Constants) (item : NotificationItem) (t : Nat) :
    (item.AnimationElapsed k t).2 =
      if (item.AnimationElapsed k t).1 = true then { item with dismissAnimTickCount := 0 }
      else item := by
  rw [AnimationElapsed_fst]
  unfold NotificationItem.AnimationElapsed
  dsimp only
  split <;> rfl

theorem refreshItem_not_elapsed (k : Constants) (s : Notifications) (t : Nat)
    (h : (s.currentItem.AnimationElapsed k t).1 = false) : s.refreshItem k t = s := by
  have h2 := AnimationElapsed_snd k s.currentItem t
  rw [h] at h2
  simp only [Bool.false_eq_true, if_false] at h2
  simp only [Notifications.refreshItem, h, Bool.false_eq_true, if_false, h2]

theorem refreshItem_elapsed (k : Constants) (s : Notifications) (t : Nat)
    (h : (s.currentItem.AnimationElapsed k t).1 = true) :
    s.refreshItem k t =
      if (s.notificationManager.At s.currentId).valid = true then
        if s.validDisplay = true then
          { s with
            log := s.log ++ [Effect.SetFullRefresh FullRefreshDirections.Up]
            currentItem :=
              NotificationItem.new (s.notificationManager.At s.currentId).title
                (s.notificationManager.At s.currentId).message (s.currentId + 1)
                (s.notificationManager.At s.currentId).category
                s.notificationManager.NbNotifications s.mode }
        else
          { s with
            currentId := 0
            log := s.log ++ [Effect.SetFullRefresh FullRefreshDirections.Up]
            currentItem := NotificationItem.empty (s.notificationManager.At s.currentId).category }
      else if s.notificationManager.GetLastNotification.valid = true ∧ s.validDisplay = true then
        { s with
          currentId := 0
          log := s.log ++ [Effect.SetFullRefresh FullRefreshDirections.Up]
          currentItem :=
            NotificationItem.new s.notificationManager.GetLastNotification.title
              s.notificationManager.GetLastNotification.message (0 + 1)
              s.notificationManager.GetLastNotification.category
              s.notificationManager.NbNotifications s.mode }
      else
        { s with
          currentId := 0
          validDisplay := false
          log := s.log ++ [Effect.SetFullRefresh FullRefreshDirections.Up]
          currentItem :=
            NotificationItem.empty s.notificationManager.GetLastNotification.category } := by
  unfold Notifications.refreshItem
  simp only [h, if_true]
  by_cases h0 : (s.notificationManager.At s.currentId).valid = true
  · by_cases hv : s.validDisplay = true
    · simp [h0, hv]
    · simp [h0, hv]
  · by_cases hl : s.notificationManager.GetLastNotification.valid = true
    · by_cases hv : s.validDisplay = true
      · simp [h0, hv, hl]
      · simp [h0, hv, hl]
    · simp [h0, hl]

theorem Refresh_eq (k : Constants) (s : Notifications) (t : Nat) :
    s.Refresh k t =
      { (s.refreshTimeout k t).refreshItem k t with
        running := ((s.refreshTimeout k t).refreshItem k t).currentItem.running &&
          ((s.refreshTimeout k t).refreshItem k t).running } := rfl


theorem refreshTimeout_eq (k : Constants) (s : Notifications) (t : Nat) :
    s.refreshTimeout k t =
      { s with
        running :=
          if s.mode = Modes.Preview ∧ s.timeoutLine = true ∧
              timeoutPos k s.timeoutTickCountStart t ≤ 0 then false
          else s.running } := by
  unfold Notifications.refreshTimeout
  by_cases h1 : s.mode = Modes.Preview ∧ s.timeoutLine = true
  · by_cases h2 : timeoutPos k s.timeoutTickCountStart t ≤ 0
    · rw [if_pos h1, if_pos h2, if_pos ⟨h1.1, h1.2, h2⟩]
    · rw [if_pos h1, if_neg h2, if_neg (fun h => h2 h.2.2)]
  · rw [if_neg h1, if_neg (fun h => h1 ⟨h.1, h.2.1⟩)]

theorem refreshItem_indexValid (k : Constants) (s : Notifications) (t : Nat)
    (h : (s.currentItem.AnimationElapsed k t).1 = true) :
    IndexValid (s.refreshItem k t) ∧
      ((s.refreshItem k t).validDisplay = false → (s.refreshItem k t).currentId = 0) := by
  rw [refreshItem_elapsed k s t h]
  have h0 := At_valid s.notificationManager s.currentId
  have hl := GetLastNotification_valid s.notificationManager
  unfold IndexValid
  split_ifs with a b c
  · exact ⟨fun _ => h0.mp a, fun hv => absurd hv (by simp [b])⟩
  · exact ⟨fun hv => absurd hv b, fun _ => rfl⟩
  · exact ⟨fun _ => hl.mp c.1, fun _ => rfl⟩
  · exact ⟨fun hv => by simp at hv, fun _ => rfl⟩

theorem Refresh_indexValid (k : Constants) (s : Notifications) (t : Nat)
    (h : (s.currentItem.AnimationElapsed k t).1 = true) :
    IndexValid (s.Refresh k t) ∧
      ((s.Refresh k t).validDisplay = false → (s.Refresh k t).currentId = 0) := by
  have h1 : ((s.refreshTimeout k t).currentItem.AnimationElapsed k t).1 = true := by
    rw [refreshTimeout_eq]; exact h
  have h2 := refreshItem_indexValid k (s.refreshTimeout k t) t h1
  rw [Refresh_eq]
  exact h2

theorem IndexValid.orEmptied {s : Notifications} (h : IndexValid s) : IndexValidOrEmptied s :=
  fun hv => Or.inl (h hv)

theorem Refresh_cursorInv (k : Constants) (s : Notifications) (t : Nat)
    (h : CursorInv s) : CursorInv (s.Refresh k t) := by
  cases he : (s.currentItem.AnimationElapsed k t).1 with
  | true => exact ⟨(Refresh_indexValid k s t he).1.orEmptied, (Refresh_indexValid k s t he).2⟩
  | false =>
    have h1 : ((s.refreshTimeout k t).currentItem.AnimationElapsed k t).1 = false := by
      rw [refreshTimeout_eq]; exact he
    rw [Refresh_eq, refreshItem_not_elapsed k _ t h1, refreshTimeout_eq]
    exact h

theorem OnTouchEvent_cursorInv (s : Notifications) (e : TouchEvents) (t : Nat)
    (hm : s.mode = Modes.Normal) (h : CursorInv s) : CursorInv (s.OnTouchEvent e t).1 := by
  have hp := GetPrevious_valid s.notificationManager s.currentId
  have hx := GetNext_valid s.notificationManager s.currentId
  have hl := GetLastNotification_valid s.notificationManager
  obtain ⟨ha, hb⟩ := h
  by_cases e1 : e = TouchEvents.SwipeRight
  · subst e1
    rw [OnTouchEvent_swipeRight s t hm]
    by_cases hv : s.validDisplay = true
    · have h1 := ha hv
      have hn := NbNotifications_Dismiss s.notificationManager s.currentId
      simp only [hv, if_true]
      refine ⟨fun _ => ?_, fun hf => by simp at hf⟩
      show (if s.currentId > 0 ∧
          s.currentId = (s.notificationManager.Dismiss s.currentId).NbNotifications then
          s.currentId - 1 else s.currentId) <
            (s.notificationManager.Dismiss s.currentId).NbNotifications ∨
          ((if s.currentId > 0 ∧
            s.currentId = (s.notificationManager.Dismiss s.currentId).NbNotifications then
            s.currentId - 1 else s.currentId) = 0 ∧
            (s.notificationManager.Dismiss s.currentId).NbNotifications = 0)
      rw [hn]
      split_ifs <;> omega
    · simp only [hv, if_false]; exact ⟨ha, hb⟩
  by_cases e2 : e = TouchEvents.SwipeDown
  · subst e2
    cases hq : (if s.validDisplay = true then s.notificationManager.GetPrevious s.currentId
      else s.notificationManager.GetLastNotification).valid with
    | false =>
      rw [OnTouchEvent_swipeDown_none s t hm hq]
      constructor
      · intro hv
        have hv2 : s.validDisplay = true := hv
        have := ha hv2
        simpa [hv2] using this
      · intro hv
        have hv2 : s.validDisplay = false := hv
        simp [hv2]
    | true =>
      rw [OnTouchEvent_swipeDown_some s t hm hq]
      refine ⟨fun _ => Or.inl ?_, fun hf => by simp at hf⟩
      show (if s.validDisplay = true then
          min (toU8 (s.currentId + 1)) (toU8 (s.notificationManager.NbNotifications + 255))
        else 0) < s.notificationManager.NbNotifications
      by_cases hv : s.validDisplay = true
      · simp only [hv, if_true] at hq ⊢
        have := hp.mp hq
        unfold toU8
        omega
      · simp only [hv, if_false] at hq ⊢
        exact hl.mp hq
  by_cases e3 : e = TouchEvents.SwipeUp
  · subst e3
    cases hq : (if s.validDisplay = true then s.notificationManager.GetNext s.currentId
      else s.notificationManager.GetLastNotification).valid with
    | false =>
      rw [OnTouchEvent_swipeUp_none s t hm hq]
      exact ⟨ha, hb⟩
    | true =>
      rw [OnTouchEvent_swipeUp_some s t hm hq]
      refine ⟨fun _ => Or.inl ?_, fun hf => by simp at hf⟩
      show (if s.currentId > 0 then s.currentId - 1 else s.currentId) <
        s.notificationManager.NbNotifications
      by_cases hv : s.validDisplay = true
      · simp only [hv, if_true] at hq
        have := hx.mp hq
        split_ifs <;> omega
      · simp only [hv, if_false] at hq
        have := hl.mp hq
        have := hb (by simpa using hv)
        split_ifs <;> omega
  · rw [OnTouchEvent_other s e t hm e1 e2 e3]
    exact ⟨ha, hb⟩

theorem OnTouchEvent_mode (s : Notifications) (e : TouchEvents) (t : Nat) :
    (s.OnTouchEvent e t).1.mode = s.mode := by
  by_cases hm : s.mode = Modes.Normal
  · by_cases e1 : e = TouchEvents.SwipeRight
    · subst e1; rw [OnTouchEvent_swipeRight s t hm]; split <;> rfl
    by_cases e2 : e = TouchEvents.SwipeDown
    · subst e2
      cases hq : (if s.validDisplay = true then s.notificationManager.GetPrevious s.currentId
        else s.notificationManager.GetLastNotification).valid with
      | false => rw [OnTouchEvent_swipeDown_none s t hm hq]
      | true => rw [OnTouchEvent_swipeDown_some s t hm hq]
    by_cases e3 : e = TouchEvents.SwipeUp
    · subst e3
      cases hq : (if s.validDisplay = true then s.notificationManager.GetNext s.currentId
        else s.notificationManager.GetLastNotification).valid with
      | false => rw [OnTouchEvent_swipeUp_none s t hm hq]
      | true => rw [OnTouchEvent_swipeUp_some s t hm hq]
    · rw [OnTouchEvent_other s e t hm e1 e2 e3]
  · rw [OnTouchEvent_notNormal s e t hm]
    split <;> rfl

theorem Refresh_mode (k : Constants) (s : Notifications) (t : Nat) :
    (s.Refresh k t).mode = s.mode := by
  rw [Refresh_eq]
  show ((s.refreshTimeout k t).refreshItem k t).mode = s.mode
  cases he : ((s.refreshTimeout k t).currentItem.AnimationElapsed k t).1 with
  | false => rw [refreshItem_not_elapsed k _ t he, refreshTimeout_eq]
  | true =>
    rw [refreshItem_elapsed k _ t he, refreshTimeout_eq]
    split_ifs <;> rfl

theorem step_mode (k : Constants) (s : Notifications) (ev : Event) :
    (s.step k ev).mode = s.mode := by
  cases ev with
  | touch e t => exact OnTouchEvent_mode s e t
  | refresh t => exact Refresh_mode k s t

theorem step_cursorInv (k : Constants) (s : Notifications) (ev : Event)
    (hm : s.mode = Modes.Normal) (h : CursorInv s) : CursorInv (s.step k ev) := by
  cases ev with
  | touch e t => exact OnTouchEvent_cursorInv s e t hm h
  | refresh t => exact Refresh_cursorInv k s t h

theorem run_cursorInv (k : Constants) (evs : List Event) :
    ∀ s : Notifications, s.mode = Modes.Normal → CursorInv s → CursorInv (s.run k evs) := by
  induction evs with
  | nil => intro s _ h; exact h
  | cons ev evs ih =>
    intro s hm h
    exact ih (s.step k ev) ((step_mode k s ev).trans hm) (step_cursorInv k s ev hm h)

theorem new_indexValid (nm : NotificationManager) (mode : Modes) (tick : Nat) :
    IndexValid (Notifications.new nm mode tick) ∧ (Notifications.new nm mode tick).currentId = 0 := by
  refine ⟨fun hv => ?_, rfl⟩
  have hv2 : nm.ClearNewNotificationFlag.GetLastNotification.valid = true := hv
  exact (GetLastNotification_valid _).mp hv2

/-! ## C1: index validity -/

/-- C1, counterexample: from a store of one record, construction in Normal mode
followed by one swipe-right reaches a state in which `validDisplay` is true
although the store is empty, so `validDisplay → currentId < Count()` fails. -/
theorem C1_index_validity_counterexample :
    ((Notifications.new (sampleStore 1) Modes.Normal 5).run sampleConstants
        [Event.touch TouchEvents.SwipeRight 7]).validDisplay = true ∧
    ((Notifications.new (sampleStore 1) Modes.Normal 5).run sampleConstants
        [Event.touch TouchEvents.SwipeRight 7]).currentId = 0 ∧
    ((Notifications.new (sampleStore 1) Modes.Normal 5).run sampleConstants
        [Event.touch TouchEvents.SwipeRight 7]).notificationManager.NbNotifications = 0 ∧
    ¬ IndexValid ((Notifications.new (sampleStore 1) Modes.Normal 5).run sampleConstants
        [Event.touch TouchEvents.SwipeRight 7]) := by
  refine ⟨by decide, by decide, by decide, fun h => ?_⟩
  have h2 := h (by decide)
  revert h2
  decide

/-- C1, amended: in every state reachable from construction in Normal mode by
gestures and Refresh ticks, `validDisplay` implies `currentId < Count()` or the
store is empty with `currentId = 0` (the state left by a swipe-right that
dismissed the only record, until the Refresh at which the dismiss animation
elapses); the strict form `validDisplay → currentId < Count()` holds right
after construction and after every Refresh at which the animation elapses. -/
theorem C1_index_validity_amended (k : Constants) (nm : NotificationManager) (tick : Nat)
    (evs : List Event) :
    IndexValidOrEmptied ((Notifications.new nm Modes.Normal tick).run k evs) ∧
    IndexValid (Notifications.new nm Modes.Normal tick) ∧
    ∀ t : Nat,
      (((Notifications.new nm Modes.Normal tick).run k evs).currentItem.AnimationElapsed k t).1
          = true →
        IndexValid (((Notifications.new nm Modes.Normal tick).run k evs).Refresh k t) := by
  have h0 := new_indexValid nm Modes.Normal tick
  refine ⟨?_, h0.1, fun t ht => (Refresh_indexValid k _ t ht).1⟩
  exact (run_cursorInv k evs _ rfl ⟨h0.1.orEmptied, fun _ => h0.2⟩).1

/-- C1, amended, at a concrete run: two records, a swipe-right at tick 7 and
the Refresh at tick 400, at which the animation has elapsed; the display is
valid and the cursor is inside the store. -/
theorem C1_index_validity_amended_witness :
    (((Notifications.new (sampleStore 2) Modes.Normal 5).run sampleConstants
      [Event.touch TouchEvents.SwipeRight 7]).currentItem.AnimationElapsed sampleConstants 400).1
        = true ∧
    (((Notifications.new (sampleStore 2) Modes.Normal 5).run sampleConstants
      [Event.touch TouchEvents.SwipeRight 7]).Refresh sampleConstants 400).validDisplay = true ∧
    IndexValid (((Notifications.new (sampleStore 2) Modes.Normal 5).run sampleConstants
      [Event.touch TouchEvents.SwipeRight 7]).Refresh sampleConstants 400) :=
  ⟨by decide, by decide,
    (C1_index_validity_amended sampleConstants (sampleStore 2) 5
      [Event.touch TouchEvents.SwipeRight 7]).2.2 400 (by decide)⟩

/-! ## C2: swipe-right while a dismissal is pending -/

/-- C2, counterexample: from a store of two records, a swipe-right at tick 7
dismisses the displayed record and starts its animation; a second swipe-right
at tick 8, when the animation has not elapsed and no Refresh has run, removes
the other record as well and starts the animation of the same view item again. -/
theorem C2_single_dismissal_counterexample :
    ((Notifications.new (sampleStore 2) Modes.Normal 5).run sampleConstants
        [Event.touch TouchEvents.SwipeRight 7]).notificationManager.NbNotifications = 1 ∧
    (((Notifications.new (sampleStore 2) Modes.Normal 5).run sampleConstants
        [Event.touch TouchEvents.SwipeRight 7]).currentItem.AnimationElapsed
          sampleConstants 8).1 = false ∧
    (((Notifications.new (sampleStore 2) Modes.Normal 5).run sampleConstants
        [Event.touch TouchEvents.SwipeRight 7]).OnTouchEvent TouchEvents.SwipeRight 8).2 = true ∧
    (((Notifications.new (sampleStore 2) Modes.Normal 5).run sampleConstants
        [Event.touch TouchEvents.SwipeRight 7]).OnTouchEvent
          TouchEvents.SwipeRight 8).1.notificationManager.NbNotifications = 0 ∧
    (((Notifications.new (sampleStore 2) Modes.Normal 5).run sampleConstants
        [Event.touch TouchEvents.SwipeRight 7]).OnTouchEvent TouchEvents.SwipeRight 8).1.log =
      [Effect.Dismiss 0, Effect.lv_anim_start, Effect.Dismiss 0, Effect.lv_anim_start] := by
  refine ⟨by decide, by decide, by decide, by decide, by decide⟩

/-- C2, amended: in Normal mode swipe-right is gated by `validDisplay` alone,
and a dismissal leaves `validDisplay` true; so after a swipe-right on a valid
display and before any Refresh, a further swipe-right is handled like the
first: it is reported handled, calls the store's `Dismiss(currentId)` again and
calls `AnimateDismiss` again on the same view item, restarting its animator. -/
theorem C2_single_dismissal_amended (s : Notifications) (t1 t2 : Nat)
    (hm : s.mode = Modes.Normal) (hv : s.validDisplay = true) :
    (s.OnTouchEvent TouchEvents.SwipeRight t1).1.validDisplay = true ∧
    ((s.OnTouchEvent TouchEvents.SwipeRight t1).1.OnTouchEvent TouchEvents.SwipeRight t2).2
      = true ∧
    ((s.OnTouchEvent TouchEvents.SwipeRight t1).1.OnTouchEvent
        TouchEvents.SwipeRight t2).1.notificationManager =
      (s.OnTouchEvent TouchEvents.SwipeRight t1).1.notificationManager.Dismiss
        (s.OnTouchEvent TouchEvents.SwipeRight t1).1.currentId ∧
    ((s.OnTouchEvent TouchEvents.SwipeRight t1).1.OnTouchEvent TouchEvents.SwipeRight t2).1.log =
      (s.OnTouchEvent TouchEvents.SwipeRight t1).1.log ++
        [Effect.Dismiss (s.OnTouchEvent TouchEvents.SwipeRight t1).1.currentId,
          Effect.lv_anim_start] ∧
    ((s.OnTouchEvent TouchEvents.SwipeRight t1).1.OnTouchEvent
        TouchEvents.SwipeRight t2).1.currentItem =
      { s.currentItem with dismissAnimTickCount := xTaskGetTickCount t2 } := by
  have hm1 : (s.OnTouchEvent TouchEvents.SwipeRight t1).1.mode = Modes.Normal :=
    (OnTouchEvent_mode s _ t1).trans hm
  have hv1 : (s.OnTouchEvent TouchEvents.SwipeRight t1).1.validDisplay = true := by
    rw [OnTouchEvent_swipeRight s t1 hm, if_pos hv]
    exact hv
  have hi1 : (s.OnTouchEvent TouchEvents.SwipeRight t1).1.currentItem =
      { s.currentItem with dismissAnimTickCount := xTaskGetTickCount t1 } := by
    rw [OnTouchEvent_swipeRight s t1 hm, if_pos hv]
    rfl
  refine ⟨hv1, ?_, ?_, ?_, ?_⟩
  · rw [OnTouchEvent_swipeRight _ t2 hm1, if_pos hv1]
  · rw [OnTouchEvent_swipeRight _ t2 hm1, if_pos hv1]
  · rw [OnTouchEvent_swipeRight _ t2 hm1, if_pos hv1]
    simp [NotificationItem.AnimateDismiss]
  · rw [OnTouchEvent_swipeRight _ t2 hm1, if_pos hv1]
    show ((s.OnTouchEvent TouchEvents.SwipeRight t1).1.currentItem.AnimateDismiss t2).1 = _
    rw [hi1]
    rfl

/-- C2, amended, at a concrete state: the screen over a store of two records. -/
theorem C2_single_dismissal_amended_witness :
    (Notifications.new (sampleStore 2) Modes.Normal 5).mode = Modes.Normal ∧
    (Notifications.new (sampleStore 2) Modes.Normal 5).validDisplay = true ∧
    ((Notifications.new (sampleStore 2) Modes.Normal 5).OnTouchEvent
        TouchEvents.SwipeRight 7).1.validDisplay = true ∧
    (((Notifications.new (sampleStore 2) Modes.Normal 5).OnTouchEvent
        TouchEvents.SwipeRight 7).1.OnTouchEvent TouchEvents.SwipeRight 8).2 = true :=
  ⟨by decide, by decide,
    (C2_single_dismissal_amended (Notifications.new (sampleStore 2) Modes.Normal 5) 7 8
      (by decide) (by decide)).1,
    (C2_single_dismissal_amended (Notifications.new (sampleStore 2) Modes.Normal 5) 7 8
      (by decide) (by decide)).2.1⟩

/-! ## Sleep messages along a run -/

theorem count_sleep_append (log extra : List Effect) :
    countDisableSleeping (log ++ extra) = countDisableSleeping log + countDisableSleeping extra ∧
    countEnableSleeping (log ++ extra) = countEnableSleeping log + countEnableSleeping extra := by
  simp [countDisableSleeping, countEnableSleeping]

theorem OnTouchEvent_normal_sleep (s : Notifications) (e : TouchEvents) (t : Nat)
    (hm : s.mode = Modes.Normal) :
    countDisableSleeping (s.OnTouchEvent e t).1.log = countDisableSleeping s.log ∧
    countEnableSleeping (s.OnTouchEvent e t).1.log = countEnableSleeping s.log ∧
    (s.OnTouchEvent e t).1.interacted = s.interacted := by
  by_cases e1 : e = TouchEvents.SwipeRight
  · subst e1
    rw [OnTouchEvent_swipeRight s t hm]
    split
    · simp [countDisableSleeping, countEnableSleeping, NotificationItem.AnimateDismiss]
    · simp
  by_cases e2 : e = TouchEvents.SwipeDown
  · subst e2
    cases hq : (if s.validDisplay = true then s.notificationManager.GetPrevious s.currentId
      else s.notificationManager.GetLastNotification).valid with
    | false => rw [OnTouchEvent_swipeDown_none s t hm hq]; simp
    | true =>
      rw [OnTouchEvent_swipeDown_some s t hm hq]
      simp [countDisableSleeping, countEnableSleeping]
  by_cases e3 : e = TouchEvents.SwipeUp
  · subst e3
    cases hq : (if s.validDisplay = true then s.notificationManager.GetNext s.currentId
      else s.notificationManager.GetLastNotification).valid with
    | false => rw [OnTouchEvent_swipeUp_none s t hm hq]; simp
    | true =>
      rw [OnTouchEvent_swipeUp_some s t hm hq]
      simp [countDisableSleeping, countEnableSleeping]
  · rw [OnTouchEvent_other s e t hm e1 e2 e3]
    simp

theorem Refresh_sleep (k : Constants) (s : Notifications) (t : Nat) :
    countDisableSleeping (s.Refresh k t).log = countDisableSleeping s.log ∧
    countEnableSleeping (s.Refresh k t).log = countEnableSleeping s.log ∧
    (s.Refresh k t).interacted = s.interacted := by
  rw [Refresh_eq]
  show countDisableSleeping ((s.refreshTimeout k t).refreshItem k t).log = _ ∧
    countEnableSleeping ((s.refreshTimeout k t).refreshItem k t).log = _ ∧
    ((s.refreshTimeout k t).refreshItem k t).interacted = _
  cases he : ((s.refreshTimeout k t).currentItem.AnimationElapsed k t).1 with
  | false => rw [refreshItem_not_elapsed k _ t he, refreshTimeout_eq]; simp
  | true =>
    rw [refreshItem_elapsed k _ t he, refreshTimeout_eq]
    split_ifs <;> simp [countDisableSleeping, countEnableSleeping]

theorem step_sleep (k : Constants) (s : Notifications) (ev : Event) :
    countDisableSleeping (s.step k ev).log = countDisableSleeping s.log ∧
    countEnableSleeping (s.step k ev).log =
      countEnableSleeping s.log +
        (if s.mode ≠ Modes.Normal ∧ s.interacted = false ∧ ev.isTap = true then 1 else 0) ∧
    (s.step k ev).interacted =
      (s.interacted || (decide (s.mode ≠ Modes.Normal) && ev.isTap)) := by
  cases ev with
  | refresh t =>
    have h := Refresh_sleep k s t
    refine ⟨h.1, ?_, ?_⟩
    · simpa [Event.isTap] using h.2.1
    · simpa [Event.isTap] using h.2.2
  | touch e t =>
    by_cases hm : s.mode = Modes.Normal
    · have h := OnTouchEvent_normal_sleep s e t hm
      refine ⟨h.1, ?_, ?_⟩
      · simpa [hm] using h.2.1
      · simpa [hm] using h.2.2
    · show countDisableSleeping (s.OnTouchEvent e t).1.log = _ ∧
        countEnableSleeping (s.OnTouchEvent e t).1.log = _ ∧ (s.OnTouchEvent e t).1.interacted = _
      rw [OnTouchEvent_notNormal s e t hm]
      by_cases he : e = TouchEvents.Tap
      · subst he
        cases hi : s.interacted with
        | false =>
          simp [hm, hi, Event.isTap, Notifications.OnPreviewInteraction, countDisableSleeping,
            countEnableSleeping]
        | true => simp [hm, hi, Event.isTap]
      · have : (Event.touch e t).isTap = false := by
          cases e <;> simp_all [Event.isTap]
        simp [he, this]

theorem run_sleep (k : Constants) (evs : List Event) :
    ∀ s : Notifications,
      countDisableSleeping (s.run k evs).log = countDisableSleeping s.log ∧
      countEnableSleeping (s.run k evs).log =
        countEnableSleeping s.log +
          (if s.mode ≠ Modes.Normal ∧ s.interacted = false ∧ evs.any Event.isTap = true then 1
            else 0) := by
  induction evs with
  | nil => intro s; simp [Notifications.run]
  | cons ev evs ih =>
    intro s
    have h1 := step_sleep k s ev
    have h2 := ih (s.step k ev)
    have hm := step_mode k s ev
    show countDisableSleeping ((s.step k ev).run k evs).log = _ ∧
      countEnableSleeping ((s.step k ev).run k evs).log = _
    rw [h2.1, h2.2, h1.1, h1.2.1, h1.2.2, hm]
    refine ⟨rfl, ?_⟩
    by_cases hn : s.mode = Modes.Normal
    · simp [hn]
    · cases hi : s.interacted <;> cases ht : ev.isTap <;> simp [hn, hi, ht]

/-! ## C3: sleep-inhibit pairing -/

/-- C3, counterexample: a Normal-mode lifetime (construction, no event,
destruction) pushes no `DisableSleeping` but one `EnableSleeping`; a
Preview-mode lifetime with one Tap pushes one `DisableSleeping` and two
`EnableSleeping`. -/
theorem C3_sleep_pairing_counterexample :
    countDisableSleeping (lifetimeLog sampleConstants (sampleStore 1) Modes.Normal 5 []) = 0 ∧
    countEnableSleeping (lifetimeLog sampleConstants (sampleStore 1) Modes.Normal 5 []) = 1 ∧
    countDisableSleeping (lifetimeLog sampleConstants (sampleStore 1) Modes.Preview 5
      [Event.touch TouchEvents.Tap 7]) = 1 ∧
    countEnableSleeping (lifetimeLog sampleConstants (sampleStore 1) Modes.Preview 5
      [Event.touch TouchEvents.Tap 7]) = 2 := by
  refine ⟨by decide, by decide, by decide, by decide⟩

/-- C3, amended: over a lifetime (construction, any gestures and Refresh ticks,
destruction) the number of `DisableSleeping` messages is 1 in Preview mode and
0 in Normal mode, and the number of `EnableSleeping` messages is 1, pushed by
the destructor, plus 1 more when the mode is Preview and a Tap was delivered;
so the two numbers are equal exactly for a Preview-mode lifetime without a Tap,
and otherwise there is one `EnableSleeping` more. -/
theorem C3_sleep_pairing_amended (k : Constants) (nm : NotificationManager) (mode : Modes)
    (tick : Nat) (evs : List Event) :
    countDisableSleeping (lifetimeLog k nm mode tick evs) =
      (if mode = Modes.Preview then 1 else 0) ∧
    countEnableSleeping (lifetimeLog k nm mode tick evs) =
      1 + (if mode = Modes.Preview ∧ evs.any Event.isTap = true then 1 else 0) ∧
    (countDisableSleeping (lifetimeLog k nm mode tick evs) =
        countEnableSleeping (lifetimeLog k nm mode tick evs) ↔
      mode = Modes.Preview ∧ evs.any Event.isTap = false) := by
  have h := run_sleep k evs (Notifications.new nm mode tick)
  have ha := count_sleep_append ((Notifications.new nm mode tick).run k evs).log
    Notifications.destroyEffects
  have hd : countDisableSleeping (lifetimeLog k nm mode tick evs) =
      (if mode = Modes.Preview then 1 else 0) := by
    show countDisableSleeping (((Notifications.new nm mode tick).run k evs).log ++
      Notifications.destroyEffects) = _
    rw [ha.1, h.1]
    cases mode <;> simp [Notifications.new, countDisableSleeping, Notifications.destroyEffects]
    split <;> simp
  have he : countEnableSleeping (lifetimeLog k nm mode tick evs) =
      1 + (if mode = Modes.Preview ∧ evs.any Event.isTap = true then 1 else 0) := by
    show countEnableSleeping (((Notifications.new nm mode tick).run k evs).log ++
      Notifications.destroyEffects) = _
    rw [ha.2, h.2]
    cases mode
    · simp [Notifications.new, countEnableSleeping, Notifications.destroyEffects]
    · simp [Notifications.new, countEnableSleeping, Notifications.destroyEffects]
      split <;> simp <;> omega
  refine ⟨hd, he, ?_⟩
  rw [hd, he]
  cases mode
  · simp
  · cases ht : evs.any Event.isTap <;> simp

theorem refreshItem_congr_running (k : Constants) (s : Notifications) (t : Nat) (r : Bool) :
    ({ s with running := r }.refreshItem k t) = { s.refreshItem k t with running := r } := by
  unfold Notifications.refreshItem
  dsimp only
  split_ifs <;> rfl

theorem Refresh_eq_refreshItem (k : Constants) (s : Notifications) (t : Nat) :
    s.Refresh k t =
      { s.refreshItem k t with
        running := (s.refreshItem k t).currentItem.running &&
          (if s.mode = Modes.Preview ∧ s.timeoutLine = true ∧
              timeoutPos k s.timeoutTickCountStart t ≤ 0 then false
            else s.running) } := by
  rw [Refresh_eq, refreshTimeout_eq, refreshItem_congr_running]

theorem At_Dismiss_of_lt (nm : NotificationManager) (i j : Nat) (h : j < i) :
    (nm.Dismiss i).At j = nm.At j := by
  unfold NotificationManager.At NotificationManager.Dismiss
  dsimp only
  rw [List.getElem?_eraseIdx_of_lt _ _ _ h]

theorem At_Dismiss_of_ge (nm : NotificationManager) (i j : Nat) (h : i ≤ j) :
    (nm.Dismiss i).At j = nm.At (j + 1) := by
  unfold NotificationManager.At NotificationManager.Dismiss
  dsimp only
  rw [List.getElem?_eraseIdx_of_ge _ _ _ h]


/-! ## C4: dismiss, then reindex -/

/-- C4: in Normal mode with a valid display over a store of `n` records, a
swipe-right at the last position (`currentId = n - 1`, `n ≥ 2`) is handled,
removes that record and sets `currentId` to `n - 2`; at the Refresh at which the
dismiss animation has elapsed the screen shows the record that was at index
`n - 2`, labelled `n - 1` of `n - 1`. When `currentId < n - 1` the swipe-right
leaves `currentId` unchanged. -/
theorem C4_dismiss_then_reindex (k : Constants) (s : Notifications) (t0 t1 : Nat)
    (hm : s.mode = Modes.Normal) (hv : s.validDisplay = true) (hu : s.currentId < 256) :
    (2 ≤ s.notificationManager.NbNotifications →
      s.currentId = s.notificationManager.NbNotifications - 1 →
        (s.OnTouchEvent TouchEvents.SwipeRight t0).2 = true ∧
        (s.OnTouchEvent TouchEvents.SwipeRight t0).1.notificationManager.notifications =
          s.notificationManager.notifications.eraseIdx
            (s.notificationManager.NbNotifications - 1) ∧
        (s.OnTouchEvent TouchEvents.SwipeRight t0).1.notificationManager.NbNotifications =
          s.notificationManager.NbNotifications - 1 ∧
        (s.OnTouchEvent TouchEvents.SwipeRight t0).1.currentId =
          s.notificationManager.NbNotifications - 2 ∧
        (((s.OnTouchEvent TouchEvents.SwipeRight t0).1.currentItem.AnimationElapsed k t1).1
            = true →
          ((s.OnTouchEvent TouchEvents.SwipeRight t0).1.Refresh k t1).currentId =
            s.notificationManager.NbNotifications - 2 ∧
          ((s.OnTouchEvent TouchEvents.SwipeRight t0).1.Refresh k t1).validDisplay = true ∧
          (s.notificationManager.At (s.notificationManager.NbNotifications - 2)).valid = true ∧
          ((s.OnTouchEvent TouchEvents.SwipeRight t0).1.Refresh k t1).currentItem =
            NotificationItem.new
              (s.notificationManager.At (s.notificationManager.NbNotifications - 2)).title
              (s.notificationManager.At (s.notificationManager.NbNotifications - 2)).message
              (s.notificationManager.NbNotifications - 1)
              (s.notificationManager.At (s.notificationManager.NbNotifications - 2)).category
              (s.notificationManager.NbNotifications - 1) Modes.Normal ∧
          ((s.OnTouchEvent TouchEvents.SwipeRight t0).1.Refresh k t1).currentItem.notifNr =
            s.notificationManager.NbNotifications - 1 ∧
          ((s.OnTouchEvent TouchEvents.SwipeRight t0).1.Refresh k t1).currentItem.notifNb =
            s.notificationManager.NbNotifications - 1)) ∧
    (s.currentId < s.notificationManager.NbNotifications - 1 →
      (s.OnTouchEvent TouchEvents.SwipeRight t0).1.currentId = s.currentId) := by
  have hn := NbNotifications_Dismiss s.notificationManager s.currentId
  have hs : s.OnTouchEvent TouchEvents.SwipeRight t0 =
      ({ s with
          notificationManager := s.notificationManager.Dismiss s.currentId
          currentId :=
            if s.currentId > 0 ∧
                s.currentId = (s.notificationManager.Dismiss s.currentId).NbNotifications then
              s.currentId - 1
            else s.currentId
          currentItem := (s.currentItem.AnimateDismiss t0).1
          log := s.log ++ [Effect.Dismiss s.currentId] ++ (s.currentItem.AnimateDismiss t0).2 },
        true) := by
    rw [OnTouchEvent_swipeRight s t0 hm, if_pos hv]
  rw [hs]
  constructor
  · intro h2 hc
    have hlt : s.currentId < s.notificationManager.NbNotifications := by omega
    rw [if_pos hlt] at hn
    have hcur : (if s.currentId > 0 ∧
        s.currentId = (s.notificationManager.Dismiss s.currentId).NbNotifications then
        s.currentId - 1 else s.currentId) = s.notificationManager.NbNotifications - 2 := by
      rw [hn, if_pos ⟨by omega, hc⟩]; omega
    refine ⟨rfl, ?_, ?_, hcur, ?_⟩
    · show (s.notificationManager.Dismiss s.currentId).notifications = _
      rw [hc]; rfl
    · exact hn
    · intro he
      dsimp only at he ⊢
      rw [Refresh_eq_refreshItem, refreshItem_elapsed k _ t1 he]
      dsimp only
      rw [hcur]
      have hat : (s.notificationManager.Dismiss s.currentId).At
          (s.notificationManager.NbNotifications - 2) =
          s.notificationManager.At (s.notificationManager.NbNotifications - 2) :=
        At_Dismiss_of_lt _ _ _ (by omega)
      have hval : (s.notificationManager.At (s.notificationManager.NbNotifications - 2)).valid
          = true := (At_valid _ _).mpr (by omega)
      rw [hat, if_pos hval, if_pos hv, hn, hm]
      have e1 : s.notificationManager.NbNotifications - 2 + 1 =
          s.notificationManager.NbNotifications - 1 := by omega
      refine ⟨rfl, hv, hval, ?_, ?_, ?_⟩
      · show NotificationItem.new _ _ _ _ _ _ = _
        rw [e1]
      · show toU8 (s.notificationManager.NbNotifications - 2 + 1) = _
        unfold toU8; omega
      · show toU8 (s.notificationManager.NbNotifications - 1) = _
        unfold toU8; omega
  · intro hc
    show (if s.currentId > 0 ∧
        s.currentId = (s.notificationManager.Dismiss s.currentId).NbNotifications then
        s.currentId - 1 else s.currentId) = s.currentId
    rw [hn]
    split_ifs <;> omega


/-- C4 at the spec's example: five records, viewing 5/5 (`currentId = 4`);
the swipe-right at tick 10 gives `currentId = 3` and the Refresh at tick 318,
when the animation has elapsed, shows the former fourth record as 4/4. -/
theorem C4_dismiss_then_reindex_witness :
    sampleAtLast.mode = Modes.Normal ∧ sampleAtLast.validDisplay = true ∧
    sampleAtLast.currentId = 4 ∧ sampleAtLast.notificationManager.NbNotifications = 5 ∧
    ((sampleAtLast.OnTouchEvent TouchEvents.SwipeRight 10).1.currentItem.AnimationElapsed
      sampleConstants 318).1 = true ∧
    (sampleAtLast.OnTouchEvent TouchEvents.SwipeRight 10).1.currentId = 3 ∧
    ((sampleAtLast.OnTouchEvent TouchEvents.SwipeRight 10).1.Refresh sampleConstants 318).currentId
      = 3 ∧
    ((sampleAtLast.OnTouchEvent TouchEvents.SwipeRight 10).1.Refresh
      sampleConstants 318).currentItem.notifNr = 4 ∧
    ((sampleAtLast.OnTouchEvent TouchEvents.SwipeRight 10).1.Refresh
      sampleConstants 318).currentItem.notifNb = 4 :=
  have h := (C4_dismiss_then_reindex sampleConstants sampleAtLast 10 318 (by decide) (by decide)
    (by decide)).1 (by decide) (by decide)
  have h2 := h.2.2.2.2 (by decide)
  ⟨by decide, by decide, by decide, by decide, by decide, h.2.2.2.1, h2.1, h2.2.2.2.2.1,
    h2.2.2.2.2.2⟩

/-! ## C5: dismissing the only record -/

/-- C5: in Normal mode, over a store of exactly one record shown as a valid
display with `currentId = 0`, a swipe-right followed by the Refresh at which the
dismiss animation has elapsed leaves `validDisplay = false` and `currentId = 0`
with an empty store, and the live view item is the empty-state placeholder:
position 0 of 0 with the text "No notification to display". -/
theorem C5_dismiss_single_item (k : Constants) (s : Notifications) (t0 t1 : Nat)
    (hm : s.mode = Modes.Normal) (hv : s.validDisplay = true) (hc : s.currentId = 0)
    (hn : s.notificationManager.NbNotifications = 1)
    (he : ((s.OnTouchEvent TouchEvents.SwipeRight t0).1.currentItem.AnimationElapsed k t1).1
      = true) :
    ((s.OnTouchEvent TouchEvents.SwipeRight t0).1.Refresh k t1).validDisplay = false ∧
    ((s.OnTouchEvent TouchEvents.SwipeRight t0).1.Refresh k t1).currentId = 0 ∧
    ((s.OnTouchEvent TouchEvents.SwipeRight t0).1.Refresh k t1).notificationManager.NbNotifications
      = 0 ∧
    ((s.OnTouchEvent TouchEvents.SwipeRight t0).1.Refresh k t1).currentItem =
      NotificationItem.empty Categories.Unknown ∧
    (NotificationItem.empty Categories.Unknown).notifNr = 0 ∧
    (NotificationItem.empty Categories.Unknown).notifNb = 0 ∧
    (NotificationItem.empty Categories.Unknown).msg = "No notification to display" := by
  have hd := NbNotifications_Dismiss s.notificationManager s.currentId
  rw [hn, hc] at hd
  have hd0 : (s.notificationManager.Dismiss 0).NbNotifications = 0 := by simpa using hd
  have hs : s.OnTouchEvent TouchEvents.SwipeRight t0 =
      ({ s with
          notificationManager := s.notificationManager.Dismiss 0
          currentId := 0
          currentItem := (s.currentItem.AnimateDismiss t0).1
          log := s.log ++ [Effect.Dismiss 0] ++ (s.currentItem.AnimateDismiss t0).2 },
        true) := by
    rw [OnTouchEvent_swipeRight s t0 hm, if_pos hv, hc]
    simp
  rw [hs] at he ⊢
  dsimp only at he ⊢
  have hat : ((s.notificationManager.Dismiss 0).At 0).valid = false := by
    cases h : ((s.notificationManager.Dismiss 0).At 0).valid with
    | false => rfl
    | true => have := (At_valid _ _).mp h; omega
  have hnone : (s.notificationManager.Dismiss 0).At 0 = Notification.none := by
    have hl : (s.notificationManager.Dismiss 0).notifications = [] :=
      List.length_eq_zero.mp hd0
    simp [NotificationManager.At, hl]
  rw [Refresh_eq_refreshItem, refreshItem_elapsed k _ t1 he]
  dsimp only
  have hne : ¬ ((s.notificationManager.Dismiss 0).At 0).valid = true := by simp [hat]
  have hnl : ¬ ((s.notificationManager.Dismiss 0).GetLastNotification.valid = true ∧
      s.validDisplay = true) := fun h => hne h.1
  rw [if_neg hne, if_neg hnl]
  refine ⟨rfl, rfl, hd0, ?_, rfl, rfl, rfl⟩
  show NotificationItem.empty (s.notificationManager.Dismiss 0).GetLastNotification.category = _
  show NotificationItem.empty ((s.notificationManager.Dismiss 0).At 0).category = _
  rw [hnone]
  rfl

/-- C5 at a concrete input: one record, swipe-right at tick 7, Refresh at
tick 400. -/
theorem C5_dismiss_single_item_witness :
    (Notifications.new (sampleStore 1) Modes.Normal 5).mode = Modes.Normal ∧
    (Notifications.new (sampleStore 1) Modes.Normal 5).validDisplay = true ∧
    (Notifications.new (sampleStore 1) Modes.Normal 5).currentId = 0 ∧
    (Notifications.new (sampleStore 1) Modes.Normal 5).notificationManager.NbNotifications = 1 ∧
    ((((Notifications.new (sampleStore 1) Modes.Normal 5).OnTouchEvent
      TouchEvents.SwipeRight 7).1.currentItem.AnimationElapsed sampleConstants 400).1 = true) ∧
    (((Notifications.new (sampleStore 1) Modes.Normal 5).OnTouchEvent
      TouchEvents.SwipeRight 7).1.Refresh sampleConstants 400).validDisplay = false ∧
    (((Notifications.new (sampleStore 1) Modes.Normal 5).OnTouchEvent
      TouchEvents.SwipeRight 7).1.Refresh sampleConstants 400).currentItem =
        NotificationItem.empty Categories.Unknown :=
  have h := C5_dismiss_single_item sampleConstants
    (Notifications.new (sampleStore 1) Modes.Normal 5) 7 400 (by decide) (by decide) (by decide)
    (by decide) (by decide)
  ⟨by decide, by decide, by decide, by decide, by decide, h.1, h.2.2.2.1⟩

/-! ## C6: swipe-up at the newest record -/

/-- C6: in Normal mode, when no newer record exists (`GetNext(currentId)` is not
valid while a valid item is shown, or the most recent record is not valid while
the empty state is shown), swipe-up returns "not handled", sets `running` to
false and changes nothing else: `currentId`, `validDisplay`, the store and the
view item are as before, and no call is made on a collaborator. -/
theorem C6_swipe_up_at_newest (s : Notifications) (t : Nat) (hm : s.mode = Modes.Normal)
    (hn : (if s.validDisplay = true then s.notificationManager.GetNext s.currentId
      else s.notificationManager.GetLastNotification).valid = false) :
    (s.OnTouchEvent TouchEvents.SwipeUp t).2 = false ∧
    (s.OnTouchEvent TouchEvents.SwipeUp t).1 = { s with running := false } ∧
    (s.OnTouchEvent TouchEvents.SwipeUp t).1.running = false ∧
    (s.OnTouchEvent TouchEvents.SwipeUp t).1.currentId = s.currentId ∧
    (s.OnTouchEvent TouchEvents.SwipeUp t).1.validDisplay = s.validDisplay ∧
    (s.OnTouchEvent TouchEvents.SwipeUp t).1.notificationManager = s.notificationManager ∧
    (s.OnTouchEvent TouchEvents.SwipeUp t).1.currentItem = s.currentItem ∧
    (s.OnTouchEvent TouchEvents.SwipeUp t).1.log = s.log := by
  rw [OnTouchEvent_swipeUp_none s t hm hn]
  exact ⟨rfl, rfl, rfl, rfl, rfl, rfl, rfl, rfl⟩

/-- C6 at a concrete input: the newest of two records is shown and
`running` is true before the swipe-up. -/
theorem C6_swipe_up_at_newest_witness :
    (Notifications.new (sampleStore 2) Modes.Normal 5).mode = Modes.Normal ∧
    (Notifications.new (sampleStore 2) Modes.Normal 5).running = true ∧
    (if (Notifications.new (sampleStore 2) Modes.Normal 5).validDisplay = true then
        (Notifications.new (sampleStore 2) Modes.Normal 5).notificationManager.GetNext
          (Notifications.new (sampleStore 2) Modes.Normal 5).currentId
      else (Notifications.new (sampleStore 2) Modes.Normal
        5).notificationManager.GetLastNotification).valid = false ∧
    ((Notifications.new (sampleStore 2) Modes.Normal 5).OnTouchEvent TouchEvents.SwipeUp 7).2
      = false ∧
    ((Notifications.new (sampleStore 2) Modes.Normal 5).OnTouchEvent
      TouchEvents.SwipeUp 7).1.running = false :=
  have h := C6_swipe_up_at_newest (Notifications.new (sampleStore 2) Modes.Normal 5) 7
    (by decide) (by decide)
  ⟨by decide, by decide, by decide, h.1, h.2.2.1⟩

/-! ## The dismiss animator -/

theorem AnimationElapsed_of_not_started (k : Constants) (item : NotificationItem) (t : Nat)
    (h : item.dismissAnimTickCount = 0) :
    (item.AnimationElapsed k t).1 = false ∧ (item.AnimationElapsed k t).2 = item := by
  have h1 : (item.AnimationElapsed k t).1 = false := by
    rw [AnimationElapsed_fst, h]; simp
  refine ⟨h1, ?_⟩
  rw [AnimationElapsed_snd, h1]
  simp

theorem AnimationElapsed_resets (k : Constants) (item : NotificationItem) (t : Nat)
    (h : (item.AnimationElapsed k t).1 = true) :
    (item.AnimationElapsed k t).2.dismissAnimTickCount = 0 := by
  rw [AnimationElapsed_snd, if_pos h]

theorem pollAll_of_not_started (k : Constants) (ticks : List Nat) :
    ∀ item : NotificationItem, item.dismissAnimTickCount = 0 →
      ∀ b ∈ item.pollAll k ticks, b = false := by
  induction ticks with
  | nil => intro item _ b hb; simp [NotificationItem.pollAll] at hb
  | cons t ticks ih =>
    intro item h b hb
    have h1 := AnimationElapsed_of_not_started k item t h
    simp only [NotificationItem.pollAll, List.mem_cons] at hb
    rcases hb with hb | hb
    · rw [hb]; exact h1.1
    · rw [h1.2] at hb
      exact ih item h b hb

theorem pollAll_count_le_one (k : Constants) (ticks : List Nat) :
    ∀ item : NotificationItem, (item.pollAll k ticks).count true ≤ 1 := by
  induction ticks with
  | nil => intro item; simp [NotificationItem.pollAll]
  | cons t ticks ih =>
    intro item
    cases h : (item.AnimationElapsed k t).1 with
    | false =>
      simp only [NotificationItem.pollAll, h]
      rw [List.count_cons_of_ne (by decide)]
      exact ih _
    | true =>
      have h0 := pollAll_of_not_started k ticks _ (AnimationElapsed_resets k item t h)
      have hz : ((item.AnimationElapsed k t).2.pollAll k ticks).count true = 0 := by
        rw [List.count_eq_zero]
        intro hmem
        have := h0 true hmem
        exact absurd this (by decide)
      simp only [NotificationItem.pollAll, h]
      rw [List.count_cons_self, hz]

/-! ## C7: the animator is one-shot -/

/-- C7: for a freshly built view item, every `AnimationElapsed` call made
before the first `AnimateDismiss` returns false, whatever the ticks; and after
any earlier sequence of animator calls followed by an `AnimateDismiss`, the
`AnimationElapsed` calls made before the next `AnimateDismiss` return true at
most once, whatever the ticks. -/
theorem C7_one_shot_animator (k : Constants) (title : Option String) (msg : String)
    (notifNr : Nat) (category : Categories) (notifNb : Nat) (mode : Modes)
    (pre : List AnimatorOp) (start : Nat) (ticks : List Nat) :
    (∀ b ∈ (NotificationItem.new title msg notifNr category notifNb mode).pollAll k ticks,
      b = false) ∧
    ((((NotificationItem.new title msg notifNr category notifNb mode).runAnimator k
      pre).AnimateDismiss start).1.pollAll k ticks).count true ≤ 1 :=
  ⟨pollAll_of_not_started k ticks _ rfl, pollAll_count_le_one k ticks _⟩

/-! ## C8: when the animator fires -/

/-- C8, counterexample: with a 307 tick animation, an animator started at
tick 0 does not fire at tick 1000 although 1000 ticks have passed; and an
animator started at tick `2 ^ 32 - 1` fires when polled at that same tick,
although no tick has passed. -/
theorem C8_animator_fires_counterexample :
    (((NotificationItem.empty Categories.Unknown).AnimateDismiss 0).1.AnimationElapsed
      sampleConstants 1000).1 = false ∧
    sampleConstants.dismissAnimLength < 1000 - 0 ∧
    (((NotificationItem.empty Categories.Unknown).AnimateDismiss 4294967295).1.AnimationElapsed
      sampleConstants 4294967295).1 = true ∧
    ¬ sampleConstants.dismissAnimLength < 4294967295 - 4294967295 := by
  refine ⟨by decide, by decide, by decide, by decide⟩

/-- C8, amended: for a start tick `s` that is not 0 and with
`s + dismissAnimLength` below `2 ^ 32`, and a poll tick `t` of the same counter
epoch (`s ≤ t < 2 ^ 32`) taken after the start with no earlier firing,
`AnimationElapsed` returns true if and only if more than `dismissAnimLength`
ticks have passed since `s`. An animator started at tick 0 never fires, since 0
is the "not started" marker. A poll that returns false leaves the animator as
it was, so earlier polls that did not fire do not change the outcome. -/
theorem C8_animator_fires_amended (k : Constants) (item : NotificationItem) (s t : Nat) :
    (s ≠ 0 → s + k.dismissAnimLength < 2 ^ 32 → s ≤ t → t < 2 ^ 32 →
      (((item.AnimateDismiss s).1.AnimationElapsed k t).1 = true ↔
        k.dismissAnimLength < t - s)) ∧
    ((item.AnimateDismiss 0).1.AnimationElapsed k t).1 = false ∧
    (((item.AnimateDismiss s).1.AnimationElapsed k t).1 = false →
      ((item.AnimateDismiss s).1.AnimationElapsed k t).2 = (item.AnimateDismiss s).1) := by
  refine ⟨?_, ?_, ?_⟩
  · intro hs0 hs hst ht
    have e1 : xTaskGetTickCount s = s := Nat.mod_eq_of_lt (by omega)
    have e2 : xTaskGetTickCount t = t := Nat.mod_eq_of_lt ht
    have e3 : add32 s k.dismissAnimLength = s + k.dismissAnimLength := Nat.mod_eq_of_lt hs
    rw [AnimationElapsed_fst]
    show (decide (xTaskGetTickCount s ≠ 0) &&
      decide (xTaskGetTickCount t > add32 (xTaskGetTickCount s) k.dismissAnimLength)) = true ↔ _
    rw [e1, e2, e3]
    simp [hs0]
    omega
  · exact (AnimationElapsed_of_not_started k _ t rfl).1
  · intro h
    rw [AnimationElapsed_snd, h]
    simp

/-- C8, amended, at a concrete input: started at tick 10 with a 307 tick
animation, the animator has fired at tick 318 and not at tick 317. -/
theorem C8_animator_fires_amended_witness :
    (10 ≠ 0 ∧ 10 + sampleConstants.dismissAnimLength < 2 ^ 32 ∧ 10 ≤ 318 ∧ 318 < 2 ^ 32) ∧
    (((NotificationItem.empty Categories.Unknown).AnimateDismiss 10).1.AnimationElapsed
      sampleConstants 318).1 = true :=
  ⟨⟨by decide, by decide, by decide, by decide⟩,
    ((C8_animator_fires_amended sampleConstants (NotificationItem.empty Categories.Unknown) 10
      318).1 (by decide) (by decide) (by decide) (by decide)).mpr (by decide)⟩

/-! ## C9: call dispatch -/

/-- C9: for a view item whose three call buttons are distinct objects, a click
on the accept, reject or mute button makes `OnCallButtonEvent` call
`StopRinging` first and then exactly the matching one of `AcceptIncomingCall`,
`RejectIncomingCall`, `MuteIncomingCall`, nothing else, and set the item's
`running` to false; an event that is not a click makes it call nothing and
leave the item, `running` included, unchanged. -/
theorem C9_call_dispatch (item : NotificationItem) (obj : Nat) (event : lv_event_t)
    (har : item.bt_accept ≠ item.bt_reject) (ham : item.bt_accept ≠ item.bt_mute)
    (hrm : item.bt_reject ≠ item.bt_mute) :
    (event = lv_event_t.LV_EVENT_CLICKED →
      (item.OnCallButtonEvent obj event).1 = { item with running := false } ∧
      (item.OnCallButtonEvent obj event).1.running = false ∧
      (some obj = item.bt_accept →
        (item.OnCallButtonEvent obj event).2 = [Effect.StopRinging, Effect.AcceptIncomingCall]) ∧
      (some obj = item.bt_reject →
        (item.OnCallButtonEvent obj event).2 = [Effect.StopRinging, Effect.RejectIncomingCall]) ∧
      (some obj = item.bt_mute →
        (item.OnCallButtonEvent obj event).2 = [Effect.StopRinging, Effect.MuteIncomingCall])) ∧
    (event ≠ lv_event_t.LV_EVENT_CLICKED →
      (item.OnCallButtonEvent obj event).2 = [] ∧
      (item.OnCallButtonEvent obj event).1 = item ∧
      (item.OnCallButtonEvent obj event).1.running = item.running) := by
  constructor
  · intro he
    subst he
    refine ⟨?_, ?_, ?_, ?_, ?_⟩
    · simp [NotificationItem.OnCallButtonEvent]
    · simp [NotificationItem.OnCallButtonEvent]
    · intro h
      simp [NotificationItem.OnCallButtonEvent, h]
    · intro h
      have h1 : ¬ some obj = item.bt_accept := fun h2 => har (h2.symm.trans h)
      unfold NotificationItem.OnCallButtonEvent
      simp only [ne_eq, not_true_eq_false, if_false]
      rw [if_neg h1, if_pos h]
    · intro h
      have h1 : ¬ some obj = item.bt_accept := fun h2 => ham (h2.symm.trans h)
      have h2 : ¬ some obj = item.bt_reject := fun h2 => hrm (h2.symm.trans h)
      unfold NotificationItem.OnCallButtonEvent
      simp only [ne_eq, not_true_eq_false, if_false]
      rw [if_neg h1, if_neg h2, if_pos h]
  · intro he
    simp [NotificationItem.OnCallButtonEvent, he]

/-- C9 at a concrete input: the view item of an incoming call, whose
constructor creates the accept, reject and mute buttons as objects 6, 8 and 10;
a click on the reject button. -/
theorem C9_call_dispatch_witness :
    ((NotificationItem.new (some "Call") "Alice" 1 Categories.IncomingCall 1
        Modes.Preview).bt_accept ≠
      (NotificationItem.new (some "Call") "Alice" 1 Categories.IncomingCall 1
        Modes.Preview).bt_reject ∧
    (NotificationItem.new (some "Call") "Alice" 1 Categories.IncomingCall 1
        Modes.Preview).bt_accept ≠
      (NotificationItem.new (some "Call") "Alice" 1 Categories.IncomingCall 1
        Modes.Preview).bt_mute ∧
    (NotificationItem.new (some "Call") "Alice" 1 Categories.IncomingCall 1
        Modes.Preview).bt_reject ≠
      (NotificationItem.new (some "Call") "Alice" 1 Categories.IncomingCall 1
        Modes.Preview).bt_mute) ∧
    ((NotificationItem.new (some "Call") "Alice" 1 Categories.IncomingCall 1
        Modes.Preview).OnCallButtonEvent 8 lv_event_t.LV_EVENT_CLICKED).2 =
      [Effect.StopRinging, Effect.RejectIncomingCall] ∧
    ((NotificationItem.new (some "Call") "Alice" 1 Categories.IncomingCall 1
        Modes.Preview).OnCallButtonEvent 8 lv_event_t.LV_EVENT_CLICKED).1.running = false :=
  have h := (C9_call_dispatch
    (NotificationItem.new (some "Call") "Alice" 1 Categories.IncomingCall 1 Modes.Preview) 8
    lv_event_t.LV_EVENT_CLICKED (by decide) (by decide) (by decide)).1 rfl
  ⟨⟨by decide, by decide, by decide⟩, h.2.2.2.1 (by decide), h.2.1⟩

/-! ## C10: the empty store -/

theorem EmptyStoreInv_new (flag : Bool) (mode : Modes) (tick : Nat) :
    EmptyStoreInv
      (Notifications.new { notifications := [], newNotification := flag } mode tick) := by
  refine ⟨rfl, rfl, rfl, ?_, rfl⟩
  intro i
  cases mode <;> simp [Notifications.new, NotificationManager.ClearNewNotificationFlag,
    NotificationManager.GetLastNotification, NotificationManager.At, Notification.none]

theorem EmptyStoreInv_lookups (s : Notifications) (h : EmptyStoreInv s) :
    s.notificationManager.GetLastNotification.valid = false ∧
    ∀ i, (s.notificationManager.GetPrevious i).valid = false ∧
      (s.notificationManager.GetNext i).valid = false := by
  have hl : s.notificationManager.notifications = [] := h.2.2.1
  refine ⟨?_, fun i => ⟨?_, ?_⟩⟩
  · simp [NotificationManager.GetLastNotification, NotificationManager.At, hl, Notification.none]
  · simp [NotificationManager.GetPrevious, NotificationManager.At, hl, Notification.none]
  · simp [NotificationManager.GetNext, NotificationManager.At, hl, Notification.none,
      NotificationManager.NbNotifications]

theorem EmptyStoreInv_step (k : Constants) (s : Notifications) (ev : Event)
    (h : EmptyStoreInv s) : EmptyStoreInv (s.step k ev) := by
  obtain ⟨hv, hc, hl, hd, hi⟩ := h
  have hlk := EmptyStoreInv_lookups s ⟨hv, hc, hl, hd, hi⟩
  cases ev with
  | refresh t =>
    show EmptyStoreInv (s.Refresh k t)
    have he : (s.currentItem.AnimationElapsed k t).1 = false :=
      (AnimationElapsed_of_not_started k _ t (by rw [hi]; rfl)).1
    rw [Refresh_eq_refreshItem, refreshItem_not_elapsed k s t he]
    exact ⟨hv, hc, hl, hd, hi⟩
  | touch e t =>
    show EmptyStoreInv (s.OnTouchEvent e t).1
    by_cases hm : s.mode = Modes.Normal
    · have hnv : ¬ s.validDisplay = true := by simp [hv]
      by_cases e1 : e = TouchEvents.SwipeRight
      · subst e1
        rw [OnTouchEvent_swipeRight s t hm, if_neg hnv]
        exact ⟨hv, hc, hl, hd, hi⟩
      by_cases e2 : e = TouchEvents.SwipeDown
      · subst e2
        have hq : (if s.validDisplay = true then s.notificationManager.GetPrevious s.currentId
            else s.notificationManager.GetLastNotification).valid = false := by
          rw [if_neg hnv]; exact hlk.1
        rw [OnTouchEvent_swipeDown_none s t hm hq, if_neg hnv]
        exact ⟨hv, rfl, hl, hd, hi⟩
      by_cases e3 : e = TouchEvents.SwipeUp
      · subst e3
        have hq : (if s.validDisplay = true then s.notificationManager.GetNext s.currentId
            else s.notificationManager.GetLastNotification).valid = false := by
          rw [if_neg hnv]; exact hlk.1
        rw [OnTouchEvent_swipeUp_none s t hm hq]
        exact ⟨hv, hc, hl, hd, hi⟩
      · rw [OnTouchEvent_other s e t hm e1 e2 e3]
        exact ⟨hv, hc, hl, hd, hi⟩
    · rw [OnTouchEvent_notNormal s e t hm]
      split
      · refine ⟨hv, hc, hl, ?_, hi⟩
        intro i
        simp [Notifications.OnPreviewInteraction, hd i]
      · exact ⟨hv, hc, hl, hd, hi⟩

theorem EmptyStoreInv_run (k : Constants) (evs : List Event) :
    ∀ s : Notifications, EmptyStoreInv s → EmptyStoreInv (s.run k evs) := by
  induction evs with
  | nil => intro s h; exact h
  | cons ev evs ih => intro s h; exact ih (s.step k ev) (EmptyStoreInv_step k s ev h)

/-- C10: when the store is empty at construction, then after construction, in
either mode, and after every sequence of gestures and Refresh ticks,
`validDisplay` is false, `currentId` is 0, the store is still empty, no
`Dismiss` call was made on the store, and the live view item is the
empty-state placeholder. -/
theorem C10_empty_store (k : Constants) (flag : Bool) (mode : Modes) (tick : Nat)
    (evs : List Event) :
    ((Notifications.new { notifications := [], newNotification := flag } mode tick).run k
      evs).validDisplay = false ∧
    ((Notifications.new { notifications := [], newNotification := flag } mode tick).run k
      evs).currentId = 0 ∧
    ((Notifications.new { notifications := [], newNotification := flag } mode tick).run k
      evs).notificationManager.notifications = [] ∧
    (∀ i, Effect.Dismiss i ∉
      ((Notifications.new { notifications := [], newNotification := flag } mode tick).run k
        evs).log) ∧
    ((Notifications.new { notifications := [], newNotification := flag } mode tick).run k
      evs).currentItem = NotificationItem.empty Categories.Unknown :=
  EmptyStoreInv_run k evs _ (EmptyStoreInv_new flag mode tick)

/-! ## The cursor invariant in either mode -/

theorem OnTouchEvent_notNormal_fields (s : Notifications) (e : TouchEvents) (t : Nat)
    (hm : s.mode ≠ Modes.Normal) :
    (s.OnTouchEvent e t).1.currentId = s.currentId ∧
    (s.OnTouchEvent e t).1.validDisplay = s.validDisplay ∧
    (s.OnTouchEvent e t).1.running = s.running ∧
    (s.OnTouchEvent e t).1.notificationManager = s.notificationManager ∧
    (s.OnTouchEvent e t).1.currentItem = s.currentItem := by
  rw [OnTouchEvent_notNormal s e t hm]
  split
  · exact ⟨rfl, rfl, rfl, rfl, rfl⟩
  · exact ⟨rfl, rfl, rfl, rfl, rfl⟩

theorem step_cursorInv_anyMode (k : Constants) (s : Notifications) (ev : Event)
    (h : CursorInv s) : CursorInv (s.step k ev) := by
  by_cases hm : s.mode = Modes.Normal
  · exact step_cursorInv k s ev hm h
  · cases ev with
    | refresh t => exact Refresh_cursorInv k s t h
    | touch e t =>
      have hf := OnTouchEvent_notNormal_fields s e t hm
      show CursorInv (s.OnTouchEvent e t).1
      unfold CursorInv IndexValidOrEmptied at h ⊢
      rw [hf.1, hf.2.1, hf.2.2.2.1]
      exact h

theorem run_cursorInv_anyMode (k : Constants) (evs : List Event) :
    ∀ s : Notifications, CursorInv s → CursorInv (s.run k evs) := by
  induction evs with
  | nil => intro s h; exact h
  | cons ev evs ih => intro s h; exact ih (s.step k ev) (step_cursorInv_anyMode k s ev h)

/-! ## C11: cursor reset on the empty display -/

/-- C11: in every state reachable from construction, in either mode, by any
sequence of gestures and Refresh ticks, `validDisplay = false` implies
`currentId = 0`. -/
theorem C11_cursor_reset (k : Constants) (nm : NotificationManager) (mode : Modes) (tick : Nat)
    (evs : List Event) :
    ((Notifications.new nm mode tick).run k evs).validDisplay = false →
      ((Notifications.new nm mode tick).run k evs).currentId = 0 :=
  have h0 := new_indexValid nm mode tick
  (run_cursorInv_anyMode k evs _ ⟨h0.1.orEmptied, fun _ => h0.2⟩).2

/-- C11 at a concrete run: one record, dismissed at tick 7; after the Refresh at
tick 400 the empty state is shown and the cursor is 0. -/
theorem C11_cursor_reset_witness :
    ((Notifications.new (sampleStore 1) Modes.Normal 5).run sampleConstants
      [Event.touch TouchEvents.SwipeRight 7, Event.refresh 400]).validDisplay = false ∧
    ((Notifications.new (sampleStore 1) Modes.Normal 5).run sampleConstants
      [Event.touch TouchEvents.SwipeRight 7, Event.refresh 400]).currentId = 0 :=
  ⟨by decide,
    C11_cursor_reset sampleConstants (sampleStore 1) Modes.Normal 5
      [Event.touch TouchEvents.SwipeRight 7, Event.refresh 400] (by decide)⟩

/-! ## Interaction along a run -/

theorem run_interacted (k : Constants) (evs : List Event) :
    ∀ s : Notifications,
      (s.run k evs).interacted =
        (s.interacted || (decide (s.mode ≠ Modes.Normal) && evs.any Event.isTap)) := by
  induction evs with
  | nil => intro s; simp [Notifications.run]
  | cons ev evs ih =>
    intro s
    show ((s.step k ev).run k evs).interacted = _
    rw [ih (s.step k ev), (step_sleep k s ev).2.2, step_mode k s ev, List.any_cons]
    cases s.interacted <;> cases ev.isTap <;> cases decide (s.mode ≠ Modes.Normal) <;> rfl

theorem run_mode (k : Constants) (evs : List Event) :
    ∀ s : Notifications, (s.run k evs).mode = s.mode := by
  induction evs with
  | nil => intro s; rfl
  | cons ev evs ih => intro s; exact (ih (s.step k ev)).trans (step_mode k s ev)

/-! ## C12: gestures in Preview mode -/

/-- C12: for a controller constructed in Preview mode and any events delivered
so far, `interacted` tells whether a Tap was delivered. A Tap that is the first
one is reported handled, sets `interacted`, pushes `EnableSleeping`, calls
`StopRinging` and detaches the timeout indicator, and changes nothing else.
Every gesture other than Tap, and every Tap after the first, is reported not
handled and leaves the whole state, effect log included, unchanged. So
`OnPreviewInteraction` runs at most once: the log holds at most one
`EnableSleeping`. -/
theorem C12_preview_gestures (k : Constants) (nm : NotificationManager) (tick : Nat)
    (evs : List Event) (e : TouchEvents) (t : Nat) :
    ((Notifications.new nm Modes.Preview tick).run k evs).interacted = evs.any Event.isTap ∧
    (evs.any Event.isTap = false →
      ((Notifications.new nm Modes.Preview tick).run k evs).OnTouchEvent TouchEvents.Tap t =
        ({ (Notifications.new nm Modes.Preview tick).run k evs with
            interacted := true
            timeoutLine := false
            log := ((Notifications.new nm Modes.Preview tick).run k evs).log ++
              [Effect.PushMessage Messages.EnableSleeping, Effect.StopRinging] }, true)) ∧
    (e ≠ TouchEvents.Tap ∨ evs.any Event.isTap = true →
      ((Notifications.new nm Modes.Preview tick).run k evs).OnTouchEvent e t =
        ((Notifications.new nm Modes.Preview tick).run k evs, false)) ∧
    countEnableSleeping ((Notifications.new nm Modes.Preview tick).run k evs).log =
      (if evs.any Event.isTap = true then 1 else 0) := by
  have hm : ((Notifications.new nm Modes.Preview tick).run k evs).mode ≠ Modes.Normal := by
    rw [run_mode]; exact fun h => Modes.noConfusion h
  have hi : ((Notifications.new nm Modes.Preview tick).run k evs).interacted =
      evs.any Event.isTap := by
    rw [run_interacted]
    show (false || (decide (Modes.Preview ≠ Modes.Normal) && evs.any Event.isTap)) = _
    simp
  refine ⟨hi, ?_, ?_, ?_⟩
  · intro hn
    rw [OnTouchEvent_notNormal _ _ t hm, hi, hn]
    rfl
  · intro h
    rw [OnTouchEvent_notNormal _ _ t hm, hi]
    rcases h with h | h
    · simp [h]
    · simp [h]
  · have h := (run_sleep k evs (Notifications.new nm Modes.Preview tick)).2
    rw [h]
    show countEnableSleeping (Notifications.new nm Modes.Preview tick).log +
      (if Modes.Preview ≠ Modes.Normal ∧ false = false ∧ evs.any Event.isTap = true then 1
        else 0) = _
    have h0 : countEnableSleeping (Notifications.new nm Modes.Preview tick).log = 0 := by
      simp [Notifications.new, countEnableSleeping]
      split <;> simp
    rw [h0]
    cases evs.any Event.isTap <;> simp

/-- C12 at a concrete run: a preview of one record; the first Tap at tick 7 is
handled, a swipe-right before it and a second Tap after it are not. -/
theorem C12_preview_gestures_witness :
    ((Notifications.new (sampleStore 1) Modes.Preview 5).run sampleConstants
      []).OnTouchEvent TouchEvents.Tap 7 =
        ({ (Notifications.new (sampleStore 1) Modes.Preview 5).run sampleConstants [] with
            interacted := true
            timeoutLine := false
            log := ((Notifications.new (sampleStore 1) Modes.Preview 5).run sampleConstants
              []).log ++ [Effect.PushMessage Messages.EnableSleeping, Effect.StopRinging] },
          true) ∧
    ((Notifications.new (sampleStore 1) Modes.Preview 5).run sampleConstants
      []).OnTouchEvent TouchEvents.SwipeRight 7 =
        ((Notifications.new (sampleStore 1) Modes.Preview 5).run sampleConstants [], false) ∧
    ((Notifications.new (sampleStore 1) Modes.Preview 5).run sampleConstants
      [Event.touch TouchEvents.Tap 7]).OnTouchEvent TouchEvents.Tap 8 =
        ((Notifications.new (sampleStore 1) Modes.Preview 5).run sampleConstants
          [Event.touch TouchEvents.Tap 7], false) :=
  ⟨(C12_preview_gestures sampleConstants (sampleStore 1) 5 [] TouchEvents.Tap 7).2.1
      (by decide),
    (C12_preview_gestures sampleConstants (sampleStore 1) 5 [] TouchEvents.SwipeRight 7).2.2.1
      (Or.inl (by decide)),
    (C12_preview_gestures sampleConstants (sampleStore 1) 5 [Event.touch TouchEvents.Tap 7]
      TouchEvents.Tap 8).2.2.1 (Or.inr (by decide))⟩

/-! ## C13: teardown -/

/-- C13: destroying the controller from any state appends to the effect log
exactly a `StopRinging` call followed by an `EnableSleeping` message, so each
of the two happens exactly once during destruction, whatever the mode and the
values of `validDisplay`, `running`, `interacted` and of the animator. -/
theorem C13_mandatory_teardown (s : Notifications) :
    s.destroy = s.log ++ [Effect.StopRinging, Effect.PushMessage Messages.EnableSleeping] ∧
    Notifications.destroyEffects.count Effect.StopRinging = 1 ∧
    countEnableSleeping Notifications.destroyEffects = 1 ∧
    countEnableSleeping s.destroy = countEnableSleeping s.log + 1 ∧
    s.destroy.count Effect.StopRinging = s.log.count Effect.StopRinging + 1 := by
  refine ⟨rfl, by decide, by decide, ?_, ?_⟩
  · rw [Notifications.destroy, (count_sleep_append _ _).2]; rfl
  · rw [Notifications.destroy, List.count_append]; rfl

/-! ## C14: swipe-down past the oldest record -/

theorem OnTouchEvent_swipeDown_none_eq (s : Notifications) (t : Nat)
    (hm : s.mode = Modes.Normal) (hc : s.validDisplay = false → s.currentId = 0)
    (hn : (if s.validDisplay = true then s.notificationManager.GetPrevious s.currentId
      else s.notificationManager.GetLastNotification).valid = false) :
    s.OnTouchEvent TouchEvents.SwipeDown t = (s, true) := by
  rw [OnTouchEvent_swipeDown_none s t hm hn]
  obtain ⟨nm, mode, item, c, v, r, i, tl, ts, log⟩ := s
  cases v with
  | true => rfl
  | false =>
    have h0 : c = 0 := hc rfl
    subst h0
    rfl

/-- C14: in every state reachable from construction in Normal mode by gestures
and Refresh ticks, when no older record exists (`GetPrevious(currentId)` is not
valid while a valid item is shown, or the most recent record is not valid while
the empty state is shown), swipe-down is reported handled and leaves the whole
state unchanged: `currentId`, `validDisplay`, `running`, the store, the view
item and the effect log. -/
theorem C14_swipe_down_past_oldest (k : Constants) (nm : NotificationManager) (tick : Nat)
    (evs : List Event) (t : Nat)
    (hn : (if ((Notifications.new nm Modes.Normal tick).run k evs).validDisplay = true then
        ((Notifications.new nm Modes.Normal tick).run k evs).notificationManager.GetPrevious
          ((Notifications.new nm Modes.Normal tick).run k evs).currentId
      else ((Notifications.new nm Modes.Normal tick).run k
        evs).notificationManager.GetLastNotification).valid = false) :
    ((Notifications.new nm Modes.Normal tick).run k evs).OnTouchEvent TouchEvents.SwipeDown t =
      ((Notifications.new nm Modes.Normal tick).run k evs, true) := by
  have h0 := new_indexValid nm Modes.Normal tick
  have hinv := run_cursorInv_anyMode k evs _ ⟨h0.1.orEmptied, fun _ => h0.2⟩
  exact OnTouchEvent_swipeDown_none_eq _ t ((run_mode k evs _).trans rfl) hinv.2 hn

/-- C14 at concrete runs: the only record is shown; and the empty state is
shown after that record was dismissed. -/
theorem C14_swipe_down_past_oldest_witness :
    ((Notifications.new (sampleStore 1) Modes.Normal 5).run sampleConstants
      []).OnTouchEvent TouchEvents.SwipeDown 7 =
        ((Notifications.new (sampleStore 1) Modes.Normal 5).run sampleConstants [], true) ∧
    ((Notifications.new (sampleStore 1) Modes.Normal 5).run sampleConstants
      [Event.touch TouchEvents.SwipeRight 7, Event.refresh 400]).OnTouchEvent
        TouchEvents.SwipeDown 401 =
      ((Notifications.new (sampleStore 1) Modes.Normal 5).run sampleConstants
        [Event.touch TouchEvents.SwipeRight 7, Event.refresh 400], true) :=
  ⟨C14_swipe_down_past_oldest sampleConstants (sampleStore 1) 5 [] 7 (by decide),
    C14_swipe_down_past_oldest sampleConstants (sampleStore 1) 5
      [Event.touch TouchEvents.SwipeRight 7, Event.refresh 400] 401 (by decide)⟩

/-! ## C15: swipe-down cursor update -/

/-- C15, counterexample: the empty state is shown with `currentId = 0` over a
store of two records; swipe-down finds the most recent record and leaves
`currentId = 0`, while `min(currentId + 1, total - 1)` is 1. -/
theorem C15_swipe_down_cursor_counterexample :
    sampleEmptyShown.mode = Modes.Normal ∧ sampleEmptyShown.validDisplay = false ∧
    sampleEmptyShown.currentId = 0 ∧ sampleEmptyShown.notificationManager.NbNotifications = 2 ∧
    sampleEmptyShown.notificationManager.GetLastNotification.valid = true ∧
    (sampleEmptyShown.OnTouchEvent TouchEvents.SwipeDown 7).2 = true ∧
    (sampleEmptyShown.OnTouchEvent TouchEvents.SwipeDown 7).1.validDisplay = true ∧
    (sampleEmptyShown.OnTouchEvent TouchEvents.SwipeDown 7).1.currentId = 0 ∧
    min (sampleEmptyShown.currentId + 1)
      (sampleEmptyShown.notificationManager.NbNotifications - 1) = 1 := by
  refine ⟨by decide, by decide, by decide, by decide, by decide, by decide, by decide,
    by decide, by decide⟩

/-- C15, amended: in Normal mode, whenever swipe-down finds a record, the
gesture is reported handled, `validDisplay` becomes true and the view item is
rebuilt for the found record with the position label new `currentId + 1`. When
a valid item was shown (the record before `currentId` was found) the new
`currentId` is `min(currentId + 1, total - 1)` computed on `uint8_t` values,
which for a store of at most 256 records is `min(currentId + 1, total - 1)`
itself; when the empty state was shown (the most recent record was found) the
new `currentId` is 0. -/
theorem C15_swipe_down_cursor_amended (s : Notifications) (t : Nat)
    (hm : s.mode = Modes.Normal)
    (hq : (if s.validDisplay = true then s.notificationManager.GetPrevious s.currentId
      else s.notificationManager.GetLastNotification).valid = true) :
    (s.OnTouchEvent TouchEvents.SwipeDown t).2 = true ∧
    (s.OnTouchEvent TouchEvents.SwipeDown t).1.validDisplay = true ∧
    (s.validDisplay = true →
      (s.OnTouchEvent TouchEvents.SwipeDown t).1.currentId =
        min (toU8 (s.currentId + 1)) (toU8 (s.notificationManager.NbNotifications + 255))) ∧
    (s.validDisplay = true → s.notificationManager.NbNotifications ≤ 256 →
      (s.OnTouchEvent TouchEvents.SwipeDown t).1.currentId =
        min (s.currentId + 1) (s.notificationManager.NbNotifications - 1)) ∧
    (s.validDisplay = false → (s.OnTouchEvent TouchEvents.SwipeDown t).1.currentId = 0) ∧
    (s.OnTouchEvent TouchEvents.SwipeDown t).1.currentItem =
      NotificationItem.new
        (if s.validDisplay = true then s.notificationManager.GetPrevious s.currentId
          else s.notificationManager.GetLastNotification).title
        (if s.validDisplay = true then s.notificationManager.GetPrevious s.currentId
          else s.notificationManager.GetLastNotification).message
        ((s.OnTouchEvent TouchEvents.SwipeDown t).1.currentId + 1)
        (if s.validDisplay = true then s.notificationManager.GetPrevious s.currentId
          else s.notificationManager.GetLastNotification).category
        s.notificationManager.NbNotifications Modes.Normal := by
  rw [OnTouchEvent_swipeDown_some s t hm hq]
  refine ⟨rfl, rfl, ?_, ?_, ?_, ?_⟩
  · intro hv
    show (if s.validDisplay = true then _ else 0) = _
    rw [if_pos hv]
  · intro hv hb
    show (if s.validDisplay = true then _ else 0) = _
    rw [if_pos hv]
    rw [if_pos hv] at hq
    have := (GetPrevious_valid _ _).mp hq
    unfold toU8
    omega
  · intro hv
    show (if s.validDisplay = true then _ else 0) = _
    rw [hv]; rfl
  · rw [hm]

/-- C15, amended, at concrete states: viewing 1/5, swipe-down moves the cursor
from 0 to 1; with the empty state shown it stays 0. -/
theorem C15_swipe_down_cursor_amended_witness :
    ((Notifications.new (sampleStore 5) Modes.Normal 5).OnTouchEvent
      TouchEvents.SwipeDown 7).1.currentId = 1 ∧
    (sampleEmptyShown.OnTouchEvent TouchEvents.SwipeDown 7).1.currentId = 0 :=
  ⟨(C15_swipe_down_cursor_amended (Notifications.new (sampleStore 5) Modes.Normal 5) 7
      (by decide) (by decide)).2.2.2.1 (by decide) (by decide),
    (C15_swipe_down_cursor_amended sampleEmptyShown 7 (by decide) (by decide)).2.2.2.2.1
      (by decide)⟩

/-! ## C16: swipe-up cursor update -/

theorem timeoutPos_nonpos (k : Constants) (start t : Nat) (hH : k.LV_HOR_RES < 2 ^ 31)
    (hd : 0 < k.timeoutLength / k.LV_HOR_RES) (hp : timeoutPos k start t ≤ 0) :
    k.LV_HOR_RES * (k.timeoutLength / k.LV_HOR_RES) ≤ sub32 (xTaskGetTickCount t) start := by
  rw [← Nat.le_div_iff_mul_le hd]
  by_contra hlt
  have hq : sub32 (xTaskGetTickCount t) start / (k.timeoutLength / k.LV_HOR_RES) <
      k.LV_HOR_RES := by omega
  unfold timeoutPos at hp
  generalize sub32 (xTaskGetTickCount t) start / (k.timeoutLength / k.LV_HOR_RES) = q at hq hp
  have hu : sub32 k.LV_HOR_RES q = k.LV_HOR_RES - q := by
    unfold sub32; omega
  rw [hu] at hp
  unfold toInt32 at hp
  have h1 : (k.LV_HOR_RES - q) % 2 ^ 32 = k.LV_HOR_RES - q := Nat.mod_eq_of_lt (by omega)
  rw [h1] at hp
  have h2 : k.LV_HOR_RES - q < 2 ^ 31 := by omega
  rw [if_pos h2] at hp
  omega

end Pinetime

namespace Pinetime

/-- C17, counterexample: with a 240 pixel wide screen and a 7168 tick timeout,
a preview opened at tick 1000 is closed by the Refresh at tick 7960: the
computed remaining length is 0 and `running` becomes false although the view
item is still running and only 6960 ticks, fewer than 7168, have elapsed. -/
theorem C17_preview_timeout_counterexample :
    1 ≤ sampleConstants.LV_HOR_RES ∧ sampleConstants.LV_HOR_RES ≤ sampleConstants.timeoutLength ∧
    (Notifications.new (sampleStore 1) Modes.Preview 1000).timeoutLine = true ∧
    (Notifications.new (sampleStore 1) Modes.Preview 1000).running = true ∧
    timeoutPos sampleConstants
      (Notifications.new (sampleStore 1) Modes.Preview 1000).timeoutTickCountStart 7960 = 0 ∧
    ((Notifications.new (sampleStore 1) Modes.Preview 1000).Refresh sampleConstants 7960).running
      = false ∧
    ((Notifications.new (sampleStore 1) Modes.Preview 1000).Refresh sampleConstants
      7960).currentItem.running = true ∧
    sub32 (xTaskGetTickCount 7960)
      (Notifications.new (sampleStore 1) Modes.Preview 1000).timeoutTickCountStart = 6960 ∧
    6960 < sampleConstants.timeoutLength := by
  refine ⟨by decide, by decide, by decide, by decide, by decide, by decide, by decide,
    by decide, by decide⟩

/-- C17, amended: in Preview mode with the indicator still attached, for a
horizontal resolution `H ≥ 1` (an `int`, below `2 ^ 31`) and a timeout length
`L ≥ H`, Refresh at tick `t` leaves `running` true exactly when it was true, the
live view item is running and the computed remaining length
`H - elapsed / (L / H)` is positive; the remaining length is `≤ 0` only if at
least `H * (L / H)` ticks have elapsed since the preview opened, where `L / H` is
the integer quotient and `elapsed` is `t - timeoutTickCountStart` on the 32-bit
counter. `H * (L / H)` is more than `L - H` but can be less than `L`. -/
theorem C17_preview_timeout_amended (k : Constants) (s : Notifications) (t : Nat)
    (hH : 1 ≤ k.LV_HOR_RES) (hL : k.LV_HOR_RES ≤ k.timeoutLength) (hH31 : k.LV_HOR_RES < 2 ^ 31)
    (hm : s.mode = Modes.Preview) (hl : s.timeoutLine = true) :
    (s.Refresh k t).running =
      ((s.Refresh k t).currentItem.running &&
        (s.running && decide (0 < timeoutPos k s.timeoutTickCountStart t))) ∧
    (timeoutPos k s.timeoutTickCountStart t ≤ 0 →
      k.LV_HOR_RES * (k.timeoutLength / k.LV_HOR_RES) ≤
        sub32 (xTaskGetTickCount t) s.timeoutTickCountStart) ∧
    k.timeoutLength < k.LV_HOR_RES * (k.timeoutLength / k.LV_HOR_RES) + k.LV_HOR_RES := by
  have hd : 0 < k.timeoutLength / k.LV_HOR_RES := Nat.div_pos hL hH
  refine ⟨?_, fun hp => timeoutPos_nonpos k _ t hH31 hd hp, ?_⟩
  · rw [Refresh_eq_refreshItem]
    show ((s.refreshItem k t).currentItem.running && _) = ((s.refreshItem k t).currentItem.running && _)
    congr 1
    by_cases hp : timeoutPos k s.timeoutTickCountStart t ≤ 0
    · rw [if_pos ⟨hm, hl, hp⟩]
      have : ¬ 0 < timeoutPos k s.timeoutTickCountStart t := by omega
      simp [this]
    · rw [if_neg (fun h => hp h.2.2)]
      have : 0 < timeoutPos k s.timeoutTickCountStart t := by omega
      simp [this]
  · have h1 := Nat.div_add_mod k.timeoutLength k.LV_HOR_RES
    have h2 := Nat.mod_lt k.timeoutLength (show k.LV_HOR_RES > 0 from hH)
    omega

/-- C17, amended, at a concrete state: a preview opened at tick 1000 is still
running after the Refresh at tick 7959, when 6959 ticks have elapsed. -/
theorem C17_preview_timeout_amended_witness :
    (1 ≤ sampleConstants.LV_HOR_RES ∧
      sampleConstants.LV_HOR_RES ≤ sampleConstants.timeoutLength ∧
      sampleConstants.LV_HOR_RES < 2 ^ 31 ∧
      (Notifications.new (sampleStore 1) Modes.Preview 1000).mode = Modes.Preview ∧
      (Notifications.new (sampleStore 1) Modes.Preview 1000).timeoutLine = true) ∧
    ((Notifications.new (sampleStore 1) Modes.Preview 1000).Refresh sampleConstants 7959).running
      = true ∧
    sampleConstants.LV_HOR_RES * (sampleConstants.timeoutLength / sampleConstants.LV_HOR_RES) ≤
      sub32 (xTaskGetTickCount 7960)
        (Notifications.new (sampleStore 1) Modes.Preview 1000).timeoutTickCountStart :=
  ⟨⟨by decide, by decide, by decide, by decide, by decide⟩,
    ((C17_preview_timeout_amended sampleConstants
      (Notifications.new (sampleStore 1) Modes.Preview 1000) 7959 (by decide) (by decide)
      (by decide) (by decide) (by decide)).1).trans (by decide),
    (C17_preview_timeout_amended sampleConstants
      (Notifications.new (sampleStore 1) Modes.Preview 1000) 7960 (by decide) (by decide)
      (by decide) (by decide) (by decide)).2.1 (by decide)⟩

/-! ## What the operations leave alone -/

theorem OnTouchEvent_normal_frame (s : Notifications) (e : TouchEvents) (t : Nat)
    (hm : s.mode = Modes.Normal) :
    (s.OnTouchEvent e t).1.timeoutLine = s.timeoutLine ∧
    (s.OnTouchEvent e t).1.timeoutTickCountStart = s.timeoutTickCountStart ∧
    (s.OnTouchEvent e t).1.notificationManager.NbNotifications ≤
      s.notificationManager.NbNotifications ∧
    ((s.OnTouchEvent e t).1.running = true → s.running = true) := by
  by_cases e1 : e = TouchEvents.SwipeRight
  · subst e1
    rw [OnTouchEvent_swipeRight s t hm]
    split
    · refine ⟨rfl, rfl, ?_, fun h => h⟩
      show (s.notificationManager.Dismiss s.currentId).NbNotifications ≤ _
      rw [NbNotifications_Dismiss]
      split_ifs <;> omega
    · exact ⟨rfl, rfl, Nat.le_refl _, fun h => h⟩
  by_cases e2 : e = TouchEvents.SwipeDown
  · subst e2
    cases hq : (if s.validDisplay = true then s.notificationManager.GetPrevious s.currentId
      else s.notificationManager.GetLastNotification).valid with
    | false =>
      rw [OnTouchEvent_swipeDown_none s t hm hq]
      exact ⟨rfl, rfl, Nat.le_refl _, fun h => h⟩
    | true =>
      rw [OnTouchEvent_swipeDown_some s t hm hq]
      exact ⟨rfl, rfl, Nat.le_refl _, fun h => h⟩
  by_cases e3 : e = TouchEvents.SwipeUp
  · subst e3
    cases hq : (if s.validDisplay = true then s.notificationManager.GetNext s.currentId
      else s.notificationManager.GetLastNotification).valid with
    | false =>
      rw [OnTouchEvent_swipeUp_none s t hm hq]
      exact ⟨rfl, rfl, Nat.le_refl _, fun h => by simp at h⟩
    | true =>
      rw [OnTouchEvent_swipeUp_some s t hm hq]
      exact ⟨rfl, rfl, Nat.le_refl _, fun h => h⟩
  · rw [OnTouchEvent_other s e t hm e1 e2 e3]
    exact ⟨rfl, rfl, Nat.le_refl _, fun h => h⟩

theorem refreshItem_frame (k : Constants) (s : Notifications) (t : Nat) :
    (s.refreshItem k t).timeoutLine = s.timeoutLine ∧
    (s.refreshItem k t).timeoutTickCountStart = s.timeoutTickCountStart ∧
    (s.refreshItem k t).notificationManager = s.notificationManager ∧
    (s.refreshItem k t).interacted = s.interacted ∧
    (s.refreshItem k t).running = s.running := by
  cases he : (s.currentItem.AnimationElapsed k t).1 with
  | false =>
    rw [refreshItem_not_elapsed k s t he]
    exact ⟨rfl, rfl, rfl, rfl, rfl⟩
  | true =>
    rw [refreshItem_elapsed k s t he]
    split_ifs <;> exact ⟨rfl, rfl, rfl, rfl, rfl⟩

theorem Refresh_frame (k : Constants) (s : Notifications) (t : Nat) :
    (s.Refresh k t).timeoutLine = s.timeoutLine ∧
    (s.Refresh k t).timeoutTickCountStart = s.timeoutTickCountStart ∧
    (s.Refresh k t).notificationManager = s.notificationManager ∧
    (s.Refresh k t).interacted = s.interacted ∧
    (s.Refresh k t).currentItem = (s.refreshItem k t).currentItem ∧
    (s.Refresh k t).running =
      ((s.Refresh k t).currentItem.running &&
        (if s.mode = Modes.Preview ∧ s.timeoutLine = true ∧
            timeoutPos k s.timeoutTickCountStart t ≤ 0 then false
          else s.running)) := by
  have h := refreshItem_frame k s t
  rw [Refresh_eq_refreshItem]
  exact ⟨h.1, h.2.1, h.2.2.1, h.2.2.2.1, rfl, rfl⟩

theorem step_running (k : Constants) (s : Notifications) (ev : Event)
    (h : (s.step k ev).running = true) : s.running = true := by
  cases ev with
  | refresh t =>
    have hr := (Refresh_frame k s t).2.2.2.2.2
    have h1 : (s.Refresh k t).running = true := h
    rw [hr] at h1
    simp only [Bool.and_eq_true] at h1
    have h2 := h1.2
    by_cases hc : s.mode = Modes.Preview ∧ s.timeoutLine = true ∧
        timeoutPos k s.timeoutTickCountStart t ≤ 0
    · rw [if_pos hc] at h2
      exact absurd h2 (by decide)
    · rw [if_neg hc] at h2
      exact h2
  | touch e t =>
    by_cases hm : s.mode = Modes.Normal
    · exact (OnTouchEvent_normal_frame s e t hm).2.2.2 h
    · have hf := (OnTouchEvent_notNormal_fields s e t hm).2.2.1
      have h1 : (s.OnTouchEvent e t).1.running = true := h
      rw [hf] at h1
      exact h1

theorem step_timeoutLine (k : Constants) (s : Notifications) (ev : Event) :
    (s.step k ev).timeoutLine =
      (s.timeoutLine &&
        !(decide (s.mode ≠ Modes.Normal) && (!s.interacted && ev.isTap))) := by
  cases ev with
  | refresh t =>
    show (s.Refresh k t).timeoutLine = _
    rw [(Refresh_frame k s t).1]
    simp [Event.isTap]
  | touch e t =>
    show (s.OnTouchEvent e t).1.timeoutLine = _
    by_cases hm : s.mode = Modes.Normal
    · rw [(OnTouchEvent_normal_frame s e t hm).1]
      simp [hm]
    · rw [OnTouchEvent_notNormal s e t hm]
      by_cases he : e = TouchEvents.Tap
      · subst he
        cases hi : s.interacted with
        | false => simp [hm, hi, Event.isTap, Notifications.OnPreviewInteraction]
        | true => simp [hm, hi, Event.isTap]
      · have : (Event.touch e t).isTap = false := by
          cases e <;> simp_all [Event.isTap]
        simp [he, this]

theorem run_timeoutLine_preview (k : Constants) (evs : List Event) :
    ∀ s : Notifications, s.mode = Modes.Preview → s.timeoutLine = !s.interacted →
      (s.run k evs).timeoutLine = !(s.run k evs).interacted := by
  induction evs with
  | nil => intro s _ h; exact h
  | cons ev evs ih =>
    intro s hm h
    refine ih (s.step k ev) ((step_mode k s ev).trans hm) ?_
    rw [step_timeoutLine, (step_sleep k s ev).2.2, h, hm]
    cases s.interacted <;> cases ev.isTap <;> rfl

/-! ## C18: interaction cancels the timeout -/

/-- C18: for a controller constructed in Preview mode, once a Tap has been
delivered the timeout indicator is detached, and from then on the timeout part
of every Refresh, at whatever tick, leaves the state unchanged: `running` after
the Refresh is `running` before it AND the live view item's `running` flag. -/
theorem C18_interaction_cancels_timeout (k : Constants) (nm : NotificationManager)
    (tick : Nat) (evs : List Event) (t : Nat) (hTap : evs.any Event.isTap = true) :
    ((Notifications.new nm Modes.Preview tick).run k evs).timeoutLine = false ∧
    ((Notifications.new nm Modes.Preview tick).run k evs).refreshTimeout k t =
      (Notifications.new nm Modes.Preview tick).run k evs ∧
    (((Notifications.new nm Modes.Preview tick).run k evs).Refresh k t).running =
      ((((Notifications.new nm Modes.Preview tick).run k evs).Refresh k t).currentItem.running &&
        ((Notifications.new nm Modes.Preview tick).run k evs).running) := by
  have hl : ((Notifications.new nm Modes.Preview tick).run k evs).timeoutLine = false := by
    rw [run_timeoutLine_preview k evs _ rfl rfl, run_interacted]
    show (!(false || (decide (Modes.Preview ≠ Modes.Normal) && evs.any Event.isTap))) = false
    rw [hTap]; rfl
  have hn : ¬ (((Notifications.new nm Modes.Preview tick).run k evs).mode = Modes.Preview ∧
      ((Notifications.new nm Modes.Preview tick).run k evs).timeoutLine = true ∧
      timeoutPos k ((Notifications.new nm Modes.Preview tick).run k evs).timeoutTickCountStart t
        ≤ 0) := by
    intro h
    rw [hl] at h
    exact absurd h.2.1 (by decide)
  refine ⟨hl, ?_, ?_⟩
  · rw [refreshTimeout_eq, if_neg hn]
  · rw [(Refresh_frame k _ t).2.2.2.2.2, if_neg hn]

/-- C18 at a concrete run: a preview opened at tick 1000 and tapped at tick
2000 is still running after the Refresh at tick 900000, long after the
timeout length. -/
theorem C18_interaction_cancels_timeout_witness :
    [Event.touch TouchEvents.Tap 2000].any Event.isTap = true ∧
    (((Notifications.new (sampleStore 1) Modes.Preview 1000).run sampleConstants
      [Event.touch TouchEvents.Tap 2000]).Refresh sampleConstants 900000).running = true :=
  ⟨by decide,
    ((C18_interaction_cancels_timeout sampleConstants (sampleStore 1) 1000
      [Event.touch TouchEvents.Tap 2000] 900000 (by decide)).2.2).trans (by decide)⟩

/-! ## C19: closing is irreversible -/

/-- C19: for every state of the controller, in either mode, in which `running`
is false, `running` is still false after any gesture and after any Refresh
tick, and hence after any sequence of them. -/
theorem C19_closing_irreversible (k : Constants) (s : Notifications) (ev : Event)
    (evs : List Event) (h : s.running = false) :
    (s.step k ev).running = false ∧ (s.run k evs).running = false := by
  have hstep : ∀ (s : Notifications) (ev : Event), s.running = false →
      (s.step k ev).running = false := by
    intro s ev h
    cases hr : (s.step k ev).running with
    | false => rfl
    | true => rw [step_running k s ev hr] at h; exact absurd h (by decide)
  refine ⟨hstep s ev h, ?_⟩
  clear ev
  induction evs generalizing s with
  | nil => exact h
  | cons ev evs ih => exact ih (s.step k ev) (hstep s ev h)

/-- C19 at a concrete state: the screen closed by a swipe-up at the newest
record stays closed after a swipe-down and a Refresh. -/
theorem C19_closing_irreversible_witness :
    ((Notifications.new (sampleStore 2) Modes.Normal 5).OnTouchEvent
      TouchEvents.SwipeUp 7).1.running = false ∧
    (((Notifications.new (sampleStore 2) Modes.Normal 5).OnTouchEvent
      TouchEvents.SwipeUp 7).1.run sampleConstants
        [Event.touch TouchEvents.SwipeDown 8, Event.refresh 9]).running = false :=
  ⟨by decide,
    (C19_closing_irreversible sampleConstants
      ((Notifications.new (sampleStore 2) Modes.Normal 5).OnTouchEvent TouchEvents.SwipeUp 7).1
      (Event.refresh 9) [Event.touch TouchEvents.SwipeDown 8, Event.refresh 9] (by decide)).2⟩

/-! ## C20: the position label -/

theorem step_NbNotifications_le (k : Constants) (s : Notifications) (ev : Event) :
    (s.step k ev).notificationManager.NbNotifications ≤ s.notificationManager.NbNotifications := by
  cases ev with
  | refresh t =>
    show (s.Refresh k t).notificationManager.NbNotifications ≤ _
    rw [(Refresh_frame k s t).2.2.1]
  | touch e t =>
    by_cases hm : s.mode = Modes.Normal
    · exact (OnTouchEvent_normal_frame s e t hm).2.2.1
    · show (s.OnTouchEvent e t).1.notificationManager.NbNotifications ≤ _
      rw [(OnTouchEvent_notNormal_fields s e t hm).2.2.2.1]

theorem run_NbNotifications_le (k : Constants) (evs : List Event) :
    ∀ s : Notifications,
      (s.run k evs).notificationManager.NbNotifications ≤ s.notificationManager.NbNotifications := by
  induction evs with
  | nil => intro s; exact Nat.le_refl _
  | cons ev evs ih =>
    intro s
    exact Nat.le_trans (ih (s.step k ev)) (step_NbNotifications_le k s ev)

theorem new_labelInRange (nm : NotificationManager) (mode : Modes) (tick : Nat)
    (hb : nm.NbNotifications < 256) (hv : (Notifications.new nm mode tick).validDisplay = true) :
    LabelInRange (Notifications.new nm mode tick) := by
  have hv2 : nm.ClearNewNotificationFlag.GetLastNotification.valid = true := hv
  have hn : 0 < nm.NbNotifications := (GetLastNotification_valid _).mp hv2
  unfold LabelInRange
  simp only [Notifications.new, hv2, if_true]
  show toU8 1 = 0 + 1 ∧ toU8 nm.NbNotifications = nm.NbNotifications ∧ 1 ≤ toU8 1 ∧
    toU8 1 ≤ toU8 nm.NbNotifications
  unfold toU8
  omega

theorem swipeDown_labelInRange (s : Notifications) (t : Nat) (hm : s.mode = Modes.Normal)
    (hb : s.notificationManager.NbNotifications < 256)
    (hq : (if s.validDisplay = true then s.notificationManager.GetPrevious s.currentId
      else s.notificationManager.GetLastNotification).valid = true) :
    LabelInRange (s.OnTouchEvent TouchEvents.SwipeDown t).1 := by
  rw [OnTouchEvent_swipeDown_some s t hm hq]
  unfold LabelInRange
  by_cases hv : s.validDisplay = true
  · rw [if_pos hv] at hq
    have := (GetPrevious_valid _ _).mp hq
    simp only [hv, if_true]
    show toU8 (min (toU8 (s.currentId + 1)) (toU8 (s.notificationManager.NbNotifications + 255))
        + 1) = min (toU8 (s.currentId + 1)) (toU8 (s.notificationManager.NbNotifications + 255))
        + 1 ∧
      toU8 s.notificationManager.NbNotifications = s.notificationManager.NbNotifications ∧
      1 ≤ toU8 (min (toU8 (s.currentId + 1))
        (toU8 (s.notificationManager.NbNotifications + 255)) + 1) ∧
      toU8 (min (toU8 (s.currentId + 1)) (toU8 (s.notificationManager.NbNotifications + 255))
        + 1) ≤ toU8 s.notificationManager.NbNotifications
    unfold toU8
    omega
  · rw [if_neg hv] at hq
    have := (GetLastNotification_valid _).mp hq
    simp only [hv, if_false]
    show toU8 (0 + 1) = 0 + 1 ∧
      toU8 s.notificationManager.NbNotifications = s.notificationManager.NbNotifications ∧
      1 ≤ toU8 (0 + 1) ∧ toU8 (0 + 1) ≤ toU8 s.notificationManager.NbNotifications
    unfold toU8
    omega

theorem swipeUp_labelInRange (s : Notifications) (t : Nat) (hm : s.mode = Modes.Normal)
    (hb : s.notificationManager.NbNotifications < 256)
    (hc : s.validDisplay = false → s.currentId = 0)
    (hq : (if s.validDisplay = true then s.notificationManager.GetNext s.currentId
      else s.notificationManager.GetLastNotification).valid = true) :
    LabelInRange (s.OnTouchEvent TouchEvents.SwipeUp t).1 := by
  rw [OnTouchEvent_swipeUp_some s t hm hq]
  unfold LabelInRange
  show toU8 ((if s.currentId > 0 then s.currentId - 1 else s.currentId) + 1) =
      (if s.currentId > 0 then s.currentId - 1 else s.currentId) + 1 ∧
    toU8 s.notificationManager.NbNotifications = s.notificationManager.NbNotifications ∧
    1 ≤ toU8 ((if s.currentId > 0 then s.currentId - 1 else s.currentId) + 1) ∧
    toU8 ((if s.currentId > 0 then s.currentId - 1 else s.currentId) + 1) ≤
      toU8 s.notificationManager.NbNotifications
  by_cases hv : s.validDisplay = true
  · rw [if_pos hv] at hq
    have := (GetNext_valid _ _).mp hq
    unfold toU8
    split_ifs <;> omega
  · rw [if_neg hv] at hq
    have := (GetLastNotification_valid _).mp hq
    have h0 := hc (by simpa using hv)
    unfold toU8
    split_ifs <;> omega

theorem refreshItem_labelInRange (k : Constants) (s : Notifications) (t : Nat)
    (hb : s.notificationManager.NbNotifications < 256)
    (he : (s.currentItem.AnimationElapsed k t).1 = true)
    (hv : (s.refreshItem k t).validDisplay = true) : LabelInRange (s.refreshItem k t) := by
  have h0 := At_valid s.notificationManager s.currentId
  have hl := GetLastNotification_valid s.notificationManager
  unfold LabelInRange
  rw [refreshItem_elapsed k s t he] at hv ⊢
  split_ifs at hv ⊢ with a b c
  · have := h0.mp a
    show toU8 (s.currentId + 1) = s.currentId + 1 ∧
      toU8 s.notificationManager.NbNotifications = s.notificationManager.NbNotifications ∧
      1 ≤ toU8 (s.currentId + 1) ∧
      toU8 (s.currentId + 1) ≤ toU8 s.notificationManager.NbNotifications
    unfold toU8
    omega
  · exact absurd hv b
  · have := hl.mp c.1
    show toU8 (0 + 1) = 0 + 1 ∧
      toU8 s.notificationManager.NbNotifications = s.notificationManager.NbNotifications ∧
      1 ≤ toU8 (0 + 1) ∧ toU8 (0 + 1) ≤ toU8 s.notificationManager.NbNotifications
    unfold toU8
    omega

theorem Refresh_labelInRange (k : Constants) (s : Notifications) (t : Nat)
    (hb : s.notificationManager.NbNotifications < 256)
    (he : (s.currentItem.AnimationElapsed k t).1 = true)
    (hv : (s.Refresh k t).validDisplay = true) : LabelInRange (s.Refresh k t) := by
  rw [Refresh_eq_refreshItem] at hv ⊢
  exact refreshItem_labelInRange k s t hb he hv

set_option maxRecDepth 100000 in
/-- C20, counterexample: over a store of 256 records the view item built at
construction for the most recent record (`currentId = 0`) is labelled with
position 1 and total 0, because the total is passed as a `uint8_t`; the total
on the label is not `Count()` and the position exceeds it. -/
theorem C20_position_label_counterexample :
    (sampleStore 256).NbNotifications = 256 ∧
    (Notifications.new (sampleStore 256) Modes.Normal 5).validDisplay = true ∧
    (Notifications.new (sampleStore 256) Modes.Normal 5).currentId = 0 ∧
    (Notifications.new (sampleStore 256) Modes.Normal
      5).notificationManager.NbNotifications = 256 ∧
    (Notifications.new (sampleStore 256) Modes.Normal 5).currentItem.notifNr = 1 ∧
    (Notifications.new (sampleStore 256) Modes.Normal 5).currentItem.notifNb = 0 ∧
    ¬ LabelInRange (Notifications.new (sampleStore 256) Modes.Normal 5) := by
  refine ⟨by decide, by decide, by decide, by decide, by decide, by decide, ?_⟩
  intro h
  have h2 := h.2.1
  revert h2
  decide

/-- C20, amended: over a store of fewer than 256 records, so that `Count()`
fits the `uint8_t` label arguments of the view item, and whose lookups are
valid exactly for indices below `Count()`, in every state reachable from
construction in Normal mode by gestures and Refresh ticks, every view item that
the controller builds for a real record is labelled with the position
`currentId + 1` and the total `Count()`, with `1 ≤ position ≤ total`: at
construction when the most recent record is valid, after a swipe-down that
finds a record, after a swipe-up that finds a record, and after a Refresh at
which the dismiss animation has elapsed and a record is shown. -/
theorem C20_position_label_amended (k : Constants) (nm : NotificationManager) (tick : Nat)
    (evs : List Event) (t : Nat) (hb : nm.NbNotifications < 256) :
    ((Notifications.new nm Modes.Normal tick).validDisplay = true →
      LabelInRange (Notifications.new nm Modes.Normal tick)) ∧
    ((if ((Notifications.new nm Modes.Normal tick).run k evs).validDisplay = true then
        ((Notifications.new nm Modes.Normal tick).run k evs).notificationManager.GetPrevious
          ((Notifications.new nm Modes.Normal tick).run k evs).currentId
      else ((Notifications.new nm Modes.Normal tick).run k
        evs).notificationManager.GetLastNotification).valid = true →
      LabelInRange
        (((Notifications.new nm Modes.Normal tick).run k evs).OnTouchEvent
          TouchEvents.SwipeDown t).1) ∧
    ((if ((Notifications.new nm Modes.Normal tick).run k evs).validDisplay = true then
        ((Notifications.new nm Modes.Normal tick).run k evs).notificationManager.GetNext
          ((Notifications.new nm Modes.Normal tick).run k evs).currentId
      else ((Notifications.new nm Modes.Normal tick).run k
        evs).notificationManager.GetLastNotification).valid = true →
      LabelInRange
        (((Notifications.new nm Modes.Normal tick).run k evs).OnTouchEvent
          TouchEvents.SwipeUp t).1) ∧
    ((((Notifications.new nm Modes.Normal tick).run k evs).currentItem.AnimationElapsed k t).1
        = true →
      (((Notifications.new nm Modes.Normal tick).run k evs).Refresh k t).validDisplay = true →
      LabelInRange (((Notifications.new nm Modes.Normal tick).run k evs).Refresh k t)) := by
  have h0 := new_indexValid nm Modes.Normal tick
  have hinv := run_cursorInv_anyMode k evs _ ⟨h0.1.orEmptied, fun _ => h0.2⟩
  have hm : ((Notifications.new nm Modes.Normal tick).run k evs).mode = Modes.Normal :=
    run_mode k evs _
  have hb2 : ((Notifications.new nm Modes.Normal tick).run k
      evs).notificationManager.NbNotifications < 256 :=
    Nat.lt_of_le_of_lt (run_NbNotifications_le k evs _) hb
  exact ⟨new_labelInRange nm Modes.Normal tick hb,
    swipeDown_labelInRange _ t hm hb2,
    swipeUp_labelInRange _ t hm hb2 hinv.2,
    Refresh_labelInRange k _ t hb2⟩

/-- C20, amended, at a concrete run: five records; the view item built at construction
is 1/5, after four swipe-downs and a swipe-up it is 4/5, and after a
swipe-right at tick 10 and the Refresh at tick 400 it is 4/4. -/
theorem C20_position_label_amended_witness :
    (sampleStore 5).NbNotifications < 256 ∧
    LabelInRange (Notifications.new (sampleStore 5) Modes.Normal 5) ∧
    LabelInRange
      (((Notifications.new (sampleStore 5) Modes.Normal 5).run sampleConstants
        [Event.touch TouchEvents.SwipeDown 6, Event.touch TouchEvents.SwipeDown 7,
          Event.touch TouchEvents.SwipeDown 8, Event.touch TouchEvents.SwipeDown 9]).OnTouchEvent
        TouchEvents.SwipeUp 10).1 ∧
    LabelInRange
      (((Notifications.new (sampleStore 5) Modes.Normal 5).run sampleConstants
        [Event.touch TouchEvents.SwipeDown 6, Event.touch TouchEvents.SwipeDown 7,
          Event.touch TouchEvents.SwipeDown 8, Event.touch TouchEvents.SwipeDown 9,
          Event.touch TouchEvents.SwipeRight 10]).Refresh sampleConstants 400) :=
  ⟨by decide,
    (C20_position_label_amended sampleConstants (sampleStore 5) 5 [] 0 (by decide)).1 (by decide),
    (C20_position_label_amended sampleConstants (sampleStore 5) 5
      [Event.touch TouchEvents.SwipeDown 6, Event.touch TouchEvents.SwipeDown 7,
        Event.touch TouchEvents.SwipeDown 8, Event.touch TouchEvents.SwipeDown 9] 10
      (by decide)).2.2.1 (by decide),
    (C20_position_label_amended sampleConstants (sampleStore 5) 5
      [Event.touch TouchEvents.SwipeDown 6, Event.touch TouchEvents.SwipeDown 7,
        Event.touch TouchEvents.SwipeDown 8, Event.touch TouchEvents.SwipeDown 9,
        Event.touch TouchEvents.SwipeRight 10] 400 (by decide)).2.2.2 (by decide) (by decide)⟩

end Pinetime
